import Mathlib

/-!
Verification development for the AI trip-planner backend
(`backend/main.py`, `backend/database.py`).

The Python code is shallowly embedded: pure helpers become Lean functions,
the SQL storage becomes an explicit record-list state, third-party HTTP
calls and generative-model calls become oracle inputs (`Except Unit _`,
where `.error` stands for a raised exception / failed call), and Python
exceptions that the code does not catch are surfaced as an `error`
outcome.  Python floats are modelled as rationals (the budget arithmetic
involved is exact), Python `json.loads` / `json.dumps` are modelled by an
executable JSON codec over a `JsonVal` type (non-finite float literals
are outside the model).
-/

/-- A JSON value as produced by `json.loads`: numbers are modelled as
rationals. -/
inductive JsonVal where
  | null : JsonVal
  | bool (b : Bool) : JsonVal
  | num (q : ℚ) : JsonVal
  | str (s : String) : JsonVal
  | arr (xs : List JsonVal) : JsonVal
  | obj (kvs : List (String × JsonVal)) : JsonVal

/-- JSON whitespace, as accepted by Python's `json` module. -/
def jsonWs (c : Char) : Bool :=
  c = ' ' || c = '\t' || c = '\n' || c = '\r'

/-- Drop leading JSON whitespace. -/
def skipWs : List Char → List Char
  | [] => []
  | c :: r => if jsonWs c then skipWs r else c :: r

/-- The value of a hex digit, if `c` is one. -/
def hexVal (c : Char) : Option Nat :=
  if '0' ≤ c ∧ c ≤ '9' then some (c.toNat - 48)
  else if 'a' ≤ c ∧ c ≤ 'f' then some (c.toNat - 87)
  else if 'A' ≤ c ∧ c ≤ 'F' then some (c.toNat - 55)
  else none

/-- The character named by a one-letter JSON escape (`\n`, `\t`, ...). -/
def escChar (c : Char) : Option Char :=
  if c = '"' then some '"'
  else if c = '\\' then some '\\'
  else if c = '/' then some '/'
  else if c = 'n' then some '\n'
  else if c = 't' then some '\t'
  else if c = 'r' then some '\r'
  else if c = 'b' then some (Char.ofNat 8)
  else if c = 'f' then some (Char.ofNat 12)
  else none

/-- Decode the body of a JSON string literal (the opening quote already
consumed): the decoded characters and the input after the closing quote.
Raw control characters are rejected, as by Python's strict default. -/
def decodeStrBody : List Char → Option (List Char × List Char)
  | [] => none
  | c :: rest =>
    if c = '"' then some ([], rest)
    else if c = '\\' then
      match rest with
      | [] => none
      | e :: rest2 =>
        if e = 'u' then
          match rest2 with
          | a :: b :: c2 :: d :: rest3 =>
            match hexVal a, hexVal b, hexVal c2, hexVal d with
            | some ha, some hb, some hc, some hd =>
              (decodeStrBody rest3).map
                (fun p => (Char.ofNat (((ha * 16 + hb) * 16 + hc) * 16 + hd) :: p.1, p.2))
            | _, _, _, _ => none
          | _ => none
        else
          match escChar e with
          | some ec => (decodeStrBody rest2).map (fun p => (ec :: p.1, p.2))
          | none => none
    else if c.toNat < 32 then none
    else (decodeStrBody rest).map (fun p => (c :: p.1, p.2))

/-- Digit run value in base 10. -/
def digitsVal (l : List Char) : Nat :=
  l.foldl (fun acc c => acc * 10 + (c.toNat - 48)) 0

/-- Is `c` an ASCII decimal digit. -/
def isDigitCh (c : Char) : Bool := '0' ≤ c && c ≤ '9'

/-- Parse a JSON number (integer part, optional fraction, optional
exponent), returning its exact rational value and the rest of the input.
Leading zeros are rejected as in the JSON grammar. -/
def decodeNum (l : List Char) : Option (ℚ × List Char) :=
  let (neg, l1) :=
    match l with
    | '-' :: r => (true, r)
    | _ => (false, l)
  let ds := l1.takeWhile isDigitCh
  let l2 := l1.dropWhile isDigitCh
  if ds = [] then none
  else if ds.length > 1 ∧ ds.headD '0' = '0' then none
  else
    let (fs, l4) :=
      match l2 with
      | '.' :: r => (r.takeWhile isDigitCh, r.dropWhile isDigitCh)
      | _ => ([], l2)
    if l2 ≠ [] ∧ l2.headD ' ' = '.' ∧ fs = [] then none
    else
      let (hasExp, eneg, es, l6) :=
        match l4 with
        | 'e' :: '-' :: r => (true, true, r.takeWhile isDigitCh, r.dropWhile isDigitCh)
        | 'e' :: '+' :: r => (true, false, r.takeWhile isDigitCh, r.dropWhile isDigitCh)
        | 'e' :: r => (true, false, r.takeWhile isDigitCh, r.dropWhile isDigitCh)
        | 'E' :: '-' :: r => (true, true, r.takeWhile isDigitCh, r.dropWhile isDigitCh)
        | 'E' :: '+' :: r => (true, false, r.takeWhile isDigitCh, r.dropWhile isDigitCh)
        | 'E' :: r => (true, false, r.takeWhile isDigitCh, r.dropWhile isDigitCh)
        | _ => (false, false, [], l4)
      if hasExp ∧ es = [] then none
      else
        let mant : ℚ := (digitsVal ds * 10 ^ fs.length + digitsVal fs : ℕ)
        let base : ℚ := mant / 10 ^ fs.length
        let expv : ℤ := if eneg then -(digitsVal es : ℤ) else (digitsVal es : ℤ)
        let v : ℚ := base * (10 : ℚ) ^ expv
        some (if neg then -v else v, l6)

/-- Insert `(k, v)` into an association list with Python-`dict` semantics:
an existing key keeps its place and gets the new value, a new key goes to
the end. -/
def dictInsert (kvs : List (String × JsonVal)) (k : String) (v : JsonVal) :
    List (String × JsonVal) :=
  match kvs with
  | [] => [(k, v)]
  | (k', v') :: r => if k' = k then (k, v) :: r else (k', v') :: dictInsert r k v

/-- Fold parsed object members into a Python `dict`: later duplicate keys
overwrite earlier ones. -/
def dictOfPairs (pairs : List (String × JsonVal)) : List (String × JsonVal) :=
  pairs.foldl (fun acc p => dictInsert acc p.1 p.2) []

mutual

/-- Parse one JSON value; `fuel` bounds recursion depth (any fuel past the
input length is enough). -/
def decodeVal : Nat → List Char → Option (JsonVal × List Char)
  | 0, _ => none
  | fuel + 1, l =>
    match skipWs l with
    | [] => none
    | c :: r =>
      if c = '{' then
        match skipWs r with
        | '}' :: r2 => some (.obj [], r2)
        | _ => (decodeObjMembers fuel r).map (fun p => (.obj (dictOfPairs p.1), p.2))
      else if c = '[' then
        match skipWs r with
        | ']' :: r2 => some (.arr [], r2)
        | _ => (decodeArrItems fuel r).map (fun p => (.arr p.1, p.2))
      else if c = '"' then
        (decodeStrBody r).map (fun p => (.str (String.mk p.1), p.2))
      else if c = 't' then
        if r.take 3 = ['r', 'u', 'e'] then some (.bool true, r.drop 3) else none
      else if c = 'f' then
        if r.take 4 = ['a', 'l', 's', 'e'] then some (.bool false, r.drop 4) else none
      else if c = 'n' then
        if r.take 3 = ['u', 'l', 'l'] then some (.null, r.drop 3) else none
      else (decodeNum (c :: r)).map (fun p => (.num p.1, p.2))

/-- Parse `"key": value` members until the closing `}` (the input starts at
the first member). -/
def decodeObjMembers : Nat → List Char → Option (List (String × JsonVal) × List Char)
  | 0, _ => none
  | fuel + 1, l =>
    match skipWs l with
    | '"' :: r =>
      match decodeStrBody r with
      | none => none
      | some (k, r2) =>
        match skipWs r2 with
        | ':' :: r3 =>
          match decodeVal fuel r3 with
          | none => none
          | some (v, r4) =>
            match skipWs r4 with
            | ',' :: r5 =>
              (decodeObjMembers fuel r5).map (fun p => ((String.mk k, v) :: p.1, p.2))
            | '}' :: r5 => some ([(String.mk k, v)], r5)
            | _ => none
        | _ => none
    | _ => none

/-- Parse array items until the closing `]` (the input starts at the first
item). -/
def decodeArrItems : Nat → List Char → Option (List JsonVal × List Char)
  | 0, _ => none
  | fuel + 1, l =>
    match decodeVal fuel l with
    | none => none
    | some (v, r) =>
      match skipWs r with
      | ',' :: r2 => (decodeArrItems fuel r2).map (fun p => (v :: p.1, p.2))
      | ']' :: r2 => some ([v], r2)
      | _ => none

end

/-- Model of Python `json.loads`: parse one JSON document and require that
only whitespace follows it. `none` models a raised `JSONDecodeError`. -/
def json_loads (s : String) : Option JsonVal :=
  match decodeVal (s.data.length + 1) s.data with
  | some (v, rest) => if skipWs rest = [] then some v else none
  | none => none

/-- One decimal digit as a character. -/
def digitChar (d : Nat) : Char := Char.ofNat (48 + d % 10)

/-- Decimal digits of a natural number, most significant first. -/
def natDigitsAux : Nat → Nat → List Char
  | 0, _ => []
  | fuel + 1, n =>
    if n < 10 then [digitChar n]
    else natDigitsAux fuel (n / 10) ++ [digitChar (n % 10)]

/-- Decimal rendering of a natural number, as Python `str` renders it. -/
def natChars (n : Nat) : List Char := natDigitsAux (n + 1) n

/-- Decimal rendering of an integer, as Python `str` renders it. -/
def intChars (z : Int) : List Char :=
  if z < 0 then '-' :: natChars z.natAbs else natChars z.natAbs

/-- Decimal rendering of a natural number as a `String`. -/
def natStr (n : Nat) : String := String.mk (natChars n)

/-- Decimal rendering of an integer as a `String`. -/
def intStr (z : Int) : String := String.mk (intChars z)

/-- How many times `p` divides `n` (with enough fuel). -/
def padicCount (p : Nat) : Nat → Nat → Nat
  | 0, _ => 0
  | fuel + 1, n => if n % p = 0 ∧ 0 < n ∧ 1 < p then 1 + padicCount p fuel (n / p) else 0

/-- Render an exact decimal rational (denominator `2^a * 5^b`) with `k`
digits after the point, given `n = |q| * 10^k` as a natural number. -/
def decimalChars (n : Nat) (k : Nat) : List Char :=
  if k = 0 then natChars n
  else
    let ds := natChars n
    let ds := (List.replicate (k + 1 - ds.length) '0') ++ ds
    ds.take (ds.length - k) ++ '.' :: ds.drop (ds.length - k)

/-- Serialize a JSON number. Integers render like Python ints; decimal
rationals render with a decimal point (Python renders floats via `repr`,
which agrees on exact decimal values); rationals with other denominators
cannot arise from `json_loads` output and render as `0`. -/
def numChars (q : ℚ) : List Char :=
  if q.den = 1 then intChars q.num
  else
    let k := max (padicCount 2 q.den q.den) (padicCount 5 q.den q.den)
    if (q * 10 ^ k).den = 1 then
      let body := decimalChars (q * 10 ^ k).num.natAbs k
      if q < 0 then '-' :: body else body
    else ['0']

/-- Escape one character for a JSON string literal, as `json.dumps` does
(non-ASCII characters are kept raw; `ensure_ascii` only changes the blob's
spelling, not its `json.loads` value). -/
def jsonEscape (c : Char) : List Char :=
  if c = '"' then ['\\', '"']
  else if c = '\\' then ['\\', '\\']
  else if c = '\n' then ['\\', 'n']
  else if c = '\t' then ['\\', 't']
  else if c = '\r' then ['\\', 'r']
  else if c = Char.ofNat 8 then ['\\', 'b']
  else if c = Char.ofNat 12 then ['\\', 'f']
  else if c.toNat < 32 then
    ['\\', 'u', '0', '0', digitChar (c.toNat / 16), digitChar (c.toNat % 16)]
  else [c]

mutual

/-- Model of Python `json.dumps` (default separators), as characters. -/
def dumpsVal : JsonVal → List Char
  | .null => "null".data
  | .bool true => "true".data
  | .bool false => "false".data
  | .num q => numChars q
  | .str s => '"' :: (s.data.map jsonEscape).flatten ++ ['"']
  | .arr xs => '[' :: dumpsArr xs ++ [']']
  | .obj kvs => '{' :: dumpsObj kvs ++ ['}']

/-- Serialize array items, comma-separated. -/
def dumpsArr : List JsonVal → List Char
  | [] => []
  | [x] => dumpsVal x
  | x :: rest => dumpsVal x ++ ',' :: ' ' :: dumpsArr rest

/-- Serialize object members, comma-separated. -/
def dumpsObj : List (String × JsonVal) → List Char
  | [] => []
  | [(k, v)] => '"' :: (k.data.map jsonEscape).flatten ++ '"' :: ':' :: ' ' :: dumpsVal v
  | (k, v) :: rest =>
    '"' :: (k.data.map jsonEscape).flatten ++ '"' :: ':' :: ' ' :: dumpsVal v
      ++ ',' :: ' ' :: dumpsObj rest

end

/-- Model of Python `json.dumps` producing a `String`. -/
def json_dumps (v : JsonVal) : String := String.mk (dumpsVal v)

/-- `base_per_day` lookup of `estimate_budget` (`{...}.get(level, 80.0)`):
40 for low, 80 for medium, 150 for high, 80 for anything else. -/
def base_per_day (level : String) : ℚ :=
  if level = "low" then 40
  else if level = "medium" then 80
  else if level = "high" then 150
  else 80

/-- `estimate_budget(days, travelers, level)`: total = rate * days *
travelers, per-person = total / max(travelers, 1). -/
def estimate_budget (days travelers : Int) (level : String) : ℚ × ℚ :=
  let total : ℚ := base_per_day level * days * travelers
  (total, total / (max travelers 1 : Int))

/-- Python truthiness of a JSON value (`bool(x)`). -/
def jtruthy : JsonVal → Bool
  | .null => false
  | .bool b => b
  | .num q => q ≠ 0
  | .str s => s ≠ ""
  | .arr xs => !xs.isEmpty
  | .obj kvs => !kvs.isEmpty

/-- `d[k]` lookup on a Python dict (keys are unique). -/
def jget (kvs : List (String × JsonVal)) (k : String) : Option JsonVal :=
  match kvs.find? (fun p => p.1 = k) with
  | some p => some p.2
  | none => none

/-- `d.get(k, dflt)`. -/
def jgetD (kvs : List (String × JsonVal)) (k : String) (dflt : JsonVal) : JsonVal :=
  (jget kvs k).getD dflt

/-- `d[k] = v`. -/
def jset (kvs : List (String × JsonVal)) (k : String) (v : JsonVal) :
    List (String × JsonVal) :=
  dictInsert kvs k v

/-- `d.setdefault(k, v)`: keep an existing key (even one holding `None`),
append the default otherwise. -/
def jsetdefault (kvs : List (String × JsonVal)) (k : String) (v : JsonVal) :
    List (String × JsonVal) :=
  match jget kvs k with
  | some _ => kvs
  | none => kvs ++ [(k, v)]

/-- `x or d` for Python `Optional[int]` (`None` and `0` are falsy). -/
def pyOrInt (o : Option Int) (d : Int) : Int :=
  match o with
  | none => d
  | some n => if n = 0 then d else n

/-- `x or d` for Python `Optional[str]` (`None` and `""` are falsy). -/
def pyOrStr (o : Option String) (d : String) : String :=
  match o with
  | none => d
  | some s => if s = "" then d else s

/-- Python `str.strip()` whitespace. -/
def pyWs (c : Char) : Bool :=
  c = ' ' || c = '\t' || c = '\n' || c = '\r' || c = '\x0b' || c = '\x0c'

/-- Python `str.strip()`. -/
def pyStrip (s : String) : String :=
  String.mk (((s.data.dropWhile pyWs).reverse.dropWhile pyWs).reverse)

/-- Core of `"\n".join(...)` over character lists. -/
def joinNlCore : List (List Char) → List Char
  | [] => []
  | [s] => s
  | s :: r :: t => s ++ '\n' :: joinNlCore (r :: t)

/-- Core of `str.split("\n")` over character lists: every newline separates,
empty segments are kept (so the result is never empty). -/
def splitNlCore : List Char → List (List Char)
  | [] => [[]]
  | c :: r =>
    if c = '\n' then [] :: splitNlCore r
    else
      match splitNlCore r with
      | [] => [[c]]
      | s :: ss => (c :: s) :: ss

/-- `"\n".join(l)`. -/
def joinNl (l : List String) : String := String.mk (joinNlCore (l.map String.data))

/-- `s.split("\n")`. -/
def pySplitNl (s : String) : List String := (splitNlCore s.data).map String.mk

/-- `s.split("\n") if s else []`: the load-side decoding of a
newline-delimited text column. -/
def loadStrList (s : String) : List String :=
  if s = "" then [] else pySplitNl s

/-- The `TripRequest` request body model. -/
structure TripRequest where
  origin : Option String := none
  destination : String
  days : Int
  budget_level : Option String := some "medium"
  travelers : Option Int := some 1
  travel_month : Option String := none
  preferences : Option (List String) := none
  notes : Option String := none
  user_id : Option String := none
deriving DecidableEq

/-- The `DayPlan` response model. -/
structure DayPlan where
  day : Int
  title : String
  summary : String
  places : List String
deriving DecidableEq

/-- The `TripPlan` response model.  Currency amounts and coordinates are
rationals; `budget_breakdown` is a JSON object's member list;
`events`/`hotels`/`restaurants` hold provider-native JSON objects. -/
structure TripPlan where
  id : Option Int := none
  destination : String
  days : Int
  budget_level : String
  overview : String
  daily_plan : List DayPlan
  tips : List String
  estimated_total_budget : Option ℚ := none
  estimated_per_person : Option ℚ := none
  budget_breakdown : Option (List (String × JsonVal)) := none
  lat : Option ℚ := none
  lng : Option ℚ := none
  weather_summary : Option String := none
  events : Option (List JsonVal) := none
  hotels : Option (List JsonVal) := none
  restaurants : Option (List JsonVal) := none

/-- A persisted `Trip` row (the SQLModel table): list fields are stored as
newline-joined text, `budget_breakdown` as a JSON text blob. -/
structure TripRow where
  id : Nat
  user_id : Option String
  origin : Option String
  destination : String
  days : Int
  budget_level : String
  travelers : Int
  travel_month : Option String
  overview : String
  tips : String
  estimated_total_budget : Option ℚ
  estimated_per_person : Option ℚ
  lat : Option ℚ
  lng : Option ℚ
  weather_summary : Option String
  budget_breakdown : Option String
deriving DecidableEq

/-- A persisted `Day` row, foreign-keyed to its trip. -/
structure DayRow where
  trip_id : Nat
  day_number : Int
  title : String
  summary : String
  places : String
deriving DecidableEq

/-- The relational store: an auto-increment counter and the two tables. -/
structure DB where
  nextTripId : Nat
  trips : List TripRow
  days : List DayRow
deriving DecidableEq

/-- The empty store. -/
def DB.empty : DB := ⟨0, [], []⟩

/-- Store well-formedness: every row's id is below the counter. -/
def DB.WF (db : DB) : Prop :=
  (∀ t ∈ db.trips, t.id < db.nextTripId) ∧ (∀ d ∈ db.days, d.trip_id < db.nextTripId)

instance (db : DB) : Decidable db.WF := by
  unfold DB.WF; infer_instance

/-- The environment credentials (`GEMINI_API_KEY`, `MAPBOX_ACCESS_TOKEN`,
`WEATHER_API_KEY`, `SERPAPI_API_KEY`). -/
structure Config where
  gemini : Option String := none
  mapbox : Option String := none
  weather : Option String := none
  serpapi : Option String := none
deriving DecidableEq

/-- Oracles for the enrichment providers' HTTP responses: `.error` stands
for any raised exception (network error, timeout, `raise_for_status`,
undecodable body), `.ok` for the decoded JSON body. -/
structure Net where
  mapboxResp : Except Unit JsonVal := .error ()
  weatherResp : Except Unit JsonVal := .error ()
  eventsResp : Except Unit JsonVal := .error ()
  hotelsResp : Except Unit JsonVal := .error ()
  restaurantsResp : Except Unit JsonVal := .error ()

/-- Attribute/method access that requires a Python dict: raises on anything
else. -/
def asObjE : JsonVal → Except Unit (List (String × JsonVal))
  | .obj kvs => .ok kvs
  | _ => .error ()

/-- `f"{q:.1f}"`: one decimal digit, rounding to nearest (Python rounds
ties to even; the tie case is the only divergence). -/
def fmt1 (q : ℚ) : String :=
  let z := round (q * 10)
  let n := z.natAbs
  (if z < 0 then "-" else "") ++ natStr (n / 10) ++ "." ++ natStr (n % 10)

/-- `fetch_google_events`: `[]` without a SerpApi key, `[]` on any raised
exception, else the top 5 events projected to
title/date/address/link/thumbnail. -/
def fetch_google_events (serpapiKey : Option String) (resp : Except Unit JsonVal) :
    List JsonVal :=
  match serpapiKey with
  | none => []
  | some _ =>
    let body : Except Unit (List JsonVal) := do
      let results ← resp
      let ro ← asObjE results
      let evs ← match jget ro "events_results" with
        | none => .ok []
        | some (.arr l) => .ok l
        | some _ => .error ()
      (evs.take 5).mapM (fun e => do
        let eo ← asObjE e
        let dateObj ← match jget eo "date" with
          | none => .ok []
          | some (.obj o) => .ok o
          | some _ => .error ()
        let address ← (if jtruthy (jgetD eo "address" .null) then
            match jget eo "address" with
            | some (.arr (a :: _)) => Except.ok a
            | some (.str s) => Except.ok (.str (String.mk (s.data.take 1)))
            | _ => Except.error ()
          else Except.ok (.str ""))
        Except.ok (.obj [("title", jgetD eo "title" (.str "")),
          ("date", jgetD dateObj "when" (.str "")),
          ("address", address),
          ("link", jgetD eo "link" (.str "")),
          ("thumbnail", jgetD eo "thumbnail" (.str ""))]))
    match body with
    | .ok evs => evs
    | .error _ => []

/-- `fetch_hotels`: `[]` without a SerpApi key, `[]` on any raised
exception, else the top 6 properties projected to
name/rating/price/image/link/description. -/
def fetch_hotels (serpapiKey : Option String) (resp : Except Unit JsonVal) :
    List JsonVal :=
  match serpapiKey with
  | none => []
  | some _ =>
    let body : Except Unit (List JsonVal) := do
      let results ← resp
      let ro ← asObjE results
      let props ← match jget ro "properties" with
        | none => .ok []
        | some (.arr l) => .ok l
        | some _ => .error ()
      (props.take 6).mapM (fun p => do
        let po ← asObjE p
        let rateObj ← match jget po "rate_per_night" with
          | none => .ok []
          | some (.obj o) => .ok o
          | some _ => .error ()
        let image ← (if jtruthy (jgetD po "images" .null) then
            match jget po "images" with
            | some (.arr (a :: _)) => do
              let ao ← asObjE a
              Except.ok (jgetD ao "thumbnail" (.str ""))
            | _ => Except.error ()
          else Except.ok (.str ""))
        Except.ok (.obj [("name", jgetD po "name" (.str "")),
          ("rating", jgetD po "overall_rating" (.num 0)),
          ("price", jgetD rateObj "extracted_lowest" (.str "N/A")),
          ("image", image),
          ("link", jgetD po "link" (.str "")),
          ("description", jgetD po "description" (.str ""))]))
    match body with
    | .ok hs => hs
    | .error _ => []

/-- `fetch_restaurants`: `[]` without a SerpApi key, `[]` on any raised
exception, else the top 8 local results projected to
name/rating/reviews/price/type/address/thumbnail/link. -/
def fetch_restaurants (serpapiKey : Option String) (resp : Except Unit JsonVal) :
    List JsonVal :=
  match serpapiKey with
  | none => []
  | some _ =>
    let body : Except Unit (List JsonVal) := do
      let results ← resp
      let ro ← asObjE results
      let places ← match jget ro "local_results" with
        | none => .ok []
        | some (.arr l) => .ok l
        | some _ => .error ()
      (places.take 8).mapM (fun p => do
        let po ← asObjE p
        Except.ok (.obj [("name", jgetD po "title" (.str "")),
          ("rating", jgetD po "rating" (.num 0)),
          ("reviews", jgetD po "reviews" (.num 0)),
          ("price", jgetD po "price" (.str "")),
          ("type", jgetD po "type" (.str "Restaurant")),
          ("address", jgetD po "address" (.str "")),
          ("thumbnail", jgetD po "thumbnail" (.str "")),
          ("link", jgetD po "link" (.str ""))]))
    match body with
    | .ok rs => rs
    | .error _ => []

/-- `geocode_destination`: `(None, None)` without a Mapbox token, on any
raised exception (best-effort), on no feature, or on a malformed `center`;
else the first feature's `[lng, lat]` returned axis-swapped as
`(lat, lng)`.  Mapbox `center` entries are modelled as JSON numbers
(Python's `float(...)` would also accept numeric strings). -/
def geocode_destination (mapboxToken : Option String) (_destination : String)
    (resp : Except Unit JsonVal) : Option ℚ × Option ℚ :=
  match mapboxToken with
  | none => (none, none)
  | some _ =>
    let body : Except Unit (Option ℚ × Option ℚ) := do
      let data ← resp
      let dobj ← asObjE data
      let features ← match jget dobj "features" with
        | none => .ok []
        | some v =>
          if jtruthy v then
            match v with
            | .arr l => Except.ok l
            | _ => Except.error ()
          else Except.ok []
      match features with
      | [] => .ok (none, none)
      | f0 :: _ => do
        let fo ← asObjE f0
        let coords ← match jget fo "center" with
          | none => .ok []
          | some v =>
            if jtruthy v then
              match v with
              | .arr l => Except.ok l
              | _ => Except.error ()
            else Except.ok []
        match coords with
        | [c0, c1] =>
          match c0, c1 with
          | .num lngv, .num latv => .ok (some latv, some lngv)
          | _, _ => .error ()
        | _ => .ok (none, none)
    match body with
    | .ok p => p
    | .error _ => (none, none)

/-- `fetch_weather`: `None` without an API key or coordinates (no call
attempted), `None` on any raised exception, else a current-conditions
string when both temperatures are present, the bare description when it is
non-empty, and `None` otherwise. -/
def fetch_weather (weatherKey : Option String) (lat lng : Option ℚ)
    (resp : Except Unit JsonVal) : Option String :=
  match weatherKey, lat, lng with
  | some _, some _, some _ =>
    let body : Except Unit (Option String) := do
      let data ← resp
      let dobj ← asObjE data
      let wlist ← match jget dobj "weather" with
        | none => .ok [JsonVal.obj []]
        | some (.arr l) => .ok l
        | some _ => .error ()
      let w0 ← match wlist with
        | w :: _ => .ok w
        | [] => .error ()
      let wo ← asObjE w0
      let main ← match jget wo "description" with
        | none => .ok ""
        | some (.str s) => .ok s
        | some _ => .error ()
      let mobj ← match jget dobj "main" with
        | none => .ok []
        | some (.obj o) => .ok o
        | some _ => .error ()
      let tempV := match jget mobj "temp" with
        | some .null => none
        | v => v
      let feelsV := match jget mobj "feels_like" with
        | some .null => none
        | v => v
      match tempV, feelsV with
      | some tv, some fv =>
        match tv, fv with
        | .num t, .num f =>
          .ok (some ("Current weather: " ++ main ++ ", " ++ fmt1 t ++ "°C (feels like "
            ++ fmt1 f ++ "°C)"))
        | _, _ => .error ()
      | _, _ =>
        if main ≠ "" then .ok (some ("Current weather: " ++ main)) else .ok none
    match body with
    | .ok r => r
    | .error _ => none
  | _, _, _ => none

/-- A pydantic `str` field value. -/
def asStr : JsonVal → Option String
  | .str s => some s
  | _ => none

/-- A pydantic `int` field value (an integral JSON number). -/
def asInt : JsonVal → Option Int
  | .num q => if q.den = 1 then some q.num else none
  | _ => none

/-- A pydantic `float` field value. -/
def asQ : JsonVal → Option ℚ
  | .num q => some q
  | _ => none

/-- A pydantic `List[str]` field value. -/
def asStrList : JsonVal → Option (List String)
  | .arr l => l.mapM asStr
  | _ => none

/-- A pydantic `dict` field value. -/
def asObjOpt : JsonVal → Option (List (String × JsonVal))
  | .obj o => some o
  | _ => none

/-- A pydantic `List[dict]` field value. -/
def asDictList : JsonVal → Option (List JsonVal)
  | .arr l => if l.all (fun v => match v with | .obj _ => true | _ => false) then some l
      else none
  | _ => none

/-- A required pydantic field: missing or invalid (including `None`) fails
validation. -/
def reqField (o : List (String × JsonVal)) (k : String) (f : JsonVal → Option α) :
    Option α :=
  (jget o k).bind f

/-- An `Optional[...]` pydantic field with default `None`: missing or
`null` is `None`, anything else must validate. -/
def optField (o : List (String × JsonVal)) (k : String) (f : JsonVal → Option α) :
    Option (Option α) :=
  match jget o k with
  | none => some none
  | some .null => some none
  | some v => (f v).map some

/-- Validate one `daily_plan` entry against the `DayPlan` model. -/
def dayPlanOfJson : JsonVal → Option DayPlan
  | .obj o => do
    let day ← reqField o "day" asInt
    let title ← reqField o "title" asStr
    let summary ← reqField o "summary" asStr
    let places ← reqField o "places" asStrList
    pure { day, title, summary, places }
  | _ => none

/-- The `daily_plan` field's `List[DayPlan]` validation. -/
def asDayPlans : JsonVal → Option (List DayPlan)
  | .arr l => l.mapM dayPlanOfJson
  | _ => none

/-- Validate a decoded-and-enriched JSON dict against the `TripPlan`
model (`TripPlan(**data)`); `none` models a raised `ValidationError`.
Unknown keys are ignored, as pydantic does. -/
def tripPlanOfJson (o : List (String × JsonVal)) : Option TripPlan := do
  let id ← optField o "id" asInt
  let destination ← reqField o "destination" asStr
  let days ← reqField o "days" asInt
  let budget_level ← reqField o "budget_level" asStr
  let overview ← reqField o "overview" asStr
  let daily_plan ← reqField o "daily_plan" asDayPlans
  let tips ← reqField o "tips" asStrList
  let estimated_total_budget ← optField o "estimated_total_budget" asQ
  let estimated_per_person ← optField o "estimated_per_person" asQ
  let budget_breakdown ← optField o "budget_breakdown" asObjOpt
  let lat ← optField o "lat" asQ
  let lng ← optField o "lng" asQ
  let weather_summary ← optField o "weather_summary" asStr
  let events ← optField o "events" asDictList
  let hotels ← optField o "hotels" asDictList
  let restaurants ← optField o "restaurants" asDictList
  pure { id, destination, days, budget_level, overview, daily_plan, tips,
         estimated_total_budget, estimated_per_person, budget_breakdown,
         lat, lng, weather_summary, events, hotels, restaurants }

/-- An optional rational as the JSON value Python would store (`None` →
`null`). -/
def optQJson : Option ℚ → JsonVal
  | none => .null
  | some q => .num q

/-- An optional string as the JSON value Python would store. -/
def optStrJson : Option String → JsonVal
  | none => .null
  | some s => .str s

/-- The `Day` rows built for a plan's `daily_plan` (places newline-joined). -/
def dayRowsOf (tripId : Nat) (dps : List DayPlan) : List DayRow :=
  dps.map (fun d => ⟨tripId, d.day, d.title, d.summary, joinNl d.places⟩)

/-- The persistence sequence shared by all three save sites:
`session.add(trip); session.commit()` assigns the header its id and makes
it durable, then the `Day` rows are added and a second `session.commit()`
makes them durable.  Returns the store as observable after each of the two
commits. -/
def save_trip_days (db : DB) (t : TripRow) (dps : List DayPlan) : DB × DB :=
  let tid := db.nextTripId
  let db1 : DB := ⟨tid + 1, db.trips ++ [{ t with id := tid }], db.days⟩
  let db2 : DB := { db1 with days := db.days ++ dayRowsOf tid dps }
  (db1, db2)

/-- `json.dumps(plan.budget_breakdown) if plan.budget_breakdown else None`
(an absent or empty dict stores `NULL`). -/
def pyDumpBreakdown : Option (List (String × JsonVal)) → Option String
  | none => none
  | some kvs => if kvs.isEmpty then none else some (json_dumps (.obj kvs))

/-- The `Trip` header row a plan is flattened to (`Trip(...)` at each of the
three save sites; the id is assigned by the insert). -/
def tripRowOf (user_id origin : Option String) (travelers : Int)
    (travel_month : Option String) (plan : TripPlan) (withBreakdown : Bool) : TripRow :=
  { id := 0, user_id := user_id, origin := origin,
    destination := plan.destination,
    days := plan.days, budget_level := plan.budget_level, travelers := travelers,
    travel_month := travel_month,
    overview := plan.overview, tips := joinNl plan.tips,
    estimated_total_budget := plan.estimated_total_budget,
    estimated_per_person := plan.estimated_per_person,
    lat := plan.lat, lng := plan.lng, weather_summary := plan.weather_summary,
    budget_breakdown := if withBreakdown then pyDumpBreakdown plan.budget_breakdown
      else none }

/-- Build the `Trip` header row from a plan and commit it together with its
`Day` rows via `save_trip_days`; the returned plan carries the assigned id.
`withBreakdown` is true only at the `plan_trip` save site (the demo and
chat sites leave the `budget_breakdown` column unset). -/
def persist_plan (db : DB) (user_id origin : Option String) (travelers : Int)
    (travel_month : Option String) (plan : TripPlan) (withBreakdown : Bool) :
    TripPlan × List DB :=
  let row : TripRow := tripRowOf user_id origin travelers travel_month plan withBreakdown
  let (db1, db2) := save_trip_days db row plan.daily_plan
  ({ plan with id := some (db.nextTripId : Int) }, [db1, db2])

/-- `text.find(c)`. -/
def findIdx (c : Char) (l : List Char) : Option Nat := l.findIdx? (· = c)

/-- `text.rfind(c)`. -/
def rfindIdx (c : Char) (l : List Char) : Option Nat :=
  match l.reverse.findIdx? (· = c) with
  | none => none
  | some i => some (l.length - 1 - i)

/-- The `plan_trip` extraction of structured data from generative text:
`json.loads` directly, and on failure `json.loads` of the substring from
the first `\x7b` to the last `\x7d` inclusive when both exist in that
order.  `none` models the uncaught `JSONDecodeError` that `plan_trip`
re-raises. -/
def planTripDecode (text : String) : Option JsonVal :=
  match json_loads text with
  | some v => some v
  | none =>
    let cs := text.data
    match findIdx '{' cs, rfindIdx '}' cs with
    | some s, some e =>
      if s < e then json_loads (String.mk ((cs.drop s).take (e + 1 - s)))
      else none
    | _, _ => none

/-- The deterministic placeholder (`dummy`) plan built by
`create_and_save_dummy_trip`: titled sample days, generic tips, still
budgeted, geocoded and weathered. -/
def dummy_trip_plan (cfg : Config) (req : TripRequest) (net : Net) : TripPlan :=
  let travelers := pyOrInt req.travelers 1
  let lvl := pyOrStr req.budget_level "medium"
  let (total, per) := estimate_budget req.days travelers lvl
  let (lat, lng) := geocode_destination cfg.mapbox req.destination net.mapboxResp
  let weather := fetch_weather cfg.weather lat lng net.weatherResp
  { destination := req.destination,
      days := req.days,
      budget_level := lvl,
      overview := "Demo itinerary because the AI trip planner is not fully configured. Set GEMINI_API_KEY / GEMINI_MODEL for real AI planning.",
      daily_plan := (List.range req.days.toNat).map (fun i =>
        { day := ((i + 1 : ℕ) : Int),
          title := "Day " ++ natStr (i + 1) ++ " in " ++ req.destination,
          summary := "Sample summary. Configure GEMINI_API_KEY for real AI planning.",
          places := (List.range 3).map (fun j => "Sample place " ++ natStr (j + 1)) }),
      tips := ["Set GEMINI_API_KEY in your backend environment.",
               "Optionally set GEMINI_MODEL (e.g. gemini-3-flash-preview).",
               "Restart the FastAPI server after setting the vars."],
      estimated_total_budget := some total,
      estimated_per_person := some per,
      lat := lat, lng := lng, weather_summary := weather }

/-- `create_and_save_dummy_trip`: the deterministic placeholder plan,
persisted like any other plan (without a `budget_breakdown` column
value). -/
def create_and_save_dummy_trip (cfg : Config) (req : TripRequest) (net : Net)
    (db : DB) : TripPlan × List DB :=
  persist_plan db req.user_id req.origin (pyOrInt req.travelers 1) req.travel_month
    (dummy_trip_plan cfg req net) false

/-- The outcome of a `plan_trip` request: a returned plan plus the store
states each commit made durable, or an uncaught exception (HTTP 500). -/
inductive PlanOutcome where
  | ok (plan : TripPlan) (commits : List DB)
  | error

/-- `plan_trip`'s mutations of the decoded `data` dict before
`TripPlan(**data)`: `setdefault` the budget level, then overwrite the
computed budget totals, geocode coordinates, weather summary and the three
provider-enrichment lists. `travelers` and `lvl` carry the already
falsy-defaulted request values. -/
def planMergedData (cfg : Config) (req : TripRequest) (travelers : Int)
    (lvl : String) (data : List (String × JsonVal)) (net : Net) :
    List (String × JsonVal) :=
  jset (jset (jset (jset (jset (jset (jset (jset
    (jsetdefault data "budget_level" (.str lvl))
    "estimated_total_budget" (.num (estimate_budget req.days travelers lvl).1))
    "estimated_per_person" (.num (estimate_budget req.days travelers lvl).2))
    "lat" (optQJson (geocode_destination cfg.mapbox req.destination net.mapboxResp).1))
    "lng" (optQJson (geocode_destination cfg.mapbox req.destination net.mapboxResp).2))
    "weather_summary"
    (optStrJson (fetch_weather cfg.weather
      (geocode_destination cfg.mapbox req.destination net.mapboxResp).1
      (geocode_destination cfg.mapbox req.destination net.mapboxResp).2
      net.weatherResp)))
    "events" (.arr (fetch_google_events cfg.serpapi net.eventsResp)))
    "hotels" (.arr (fetch_hotels cfg.serpapi net.hotelsResp)))
    "restaurants" (.arr (fetch_restaurants cfg.serpapi net.restaurantsResp))

/-- Validate the merged dict into a `TripPlan` and persist it (`plan_trip`
save site: with the `budget_breakdown` column value); a validation failure
raises. -/
def plan_build_and_persist (cfg : Config) (req : TripRequest) (travelers : Int)
    (lvl : String) (data : List (String × JsonVal)) (net : Net) (db : DB) :
    PlanOutcome :=
  match tripPlanOfJson (planMergedData cfg req travelers lvl data net) with
  | none => .error
  | some plan =>
    let pc := persist_plan db req.user_id req.origin travelers req.travel_month plan true
    .ok pc.1 pc.2

/-- `plan_trip`: fall back to the placeholder when no Gemini key is
configured or the generation call raises; otherwise decode the generative
text (brace-bounding on failure, re-raising when that cannot salvage it),
enrich with budget/geocode/weather/events/hotels/restaurants, validate as
a `TripPlan` and persist.  `gen` is the generation oracle: `.error` for a
raised call, `.ok text` for `response.text` (empty text falls back to
`"\x7b\x7d"`). -/
def plan_trip (cfg : Config) (username : String) (req0 : TripRequest) (net : Net)
    (gen : Except Unit String) (db : DB) : PlanOutcome :=
  let req := { req0 with user_id := some username }
  match cfg.gemini with
  | none =>
    let (p, commits) := create_and_save_dummy_trip cfg req net db
    .ok p commits
  | some _ =>
    match gen with
    | .error _ =>
      let (p, commits) := create_and_save_dummy_trip cfg req net db
      .ok p commits
    | .ok t =>
      let text := if t = "" then "\x7b\x7d" else t
      match planTripDecode text with
      | none => .error
      | some (.obj data) =>
        plan_build_and_persist cfg req (pyOrInt req.travelers 1)
          (pyOrStr req.budget_level "medium") data net db
      | some _ => .error

/-- Insert a `Day` row into a day-number-sorted list. -/
def sortDaysInsert (d : DayRow) : List DayRow → List DayRow
  | [] => [d]
  | e :: r => if d.day_number ≤ e.day_number then d :: e :: r else e :: sortDaysInsert d r

/-- `ORDER BY day_number` over a trip's `Day` rows. -/
def sortDays : List DayRow → List DayRow
  | [] => []
  | d :: r => sortDaysInsert d (sortDays r)

/-- `json.loads(trip.budget_breakdown) if trip.budget_breakdown else None`,
then pydantic `dict` validation; `none` models the raised exception. -/
def loadBreakdown : Option String → Option (Option (List (String × JsonVal)))
  | none => some none
  | some s =>
    if s = "" then some none
    else
      match json_loads s with
      | some (.obj kvs) => some (some kvs)
      | _ => none

/-- `get_trip`: find the trip by id, require ownership, rebuild the plan
from the header and its day rows ordered by day number, re-splitting the
newline-joined text fields.  The enrichment fields are not reconstructed.
`none` covers both the 404 and a raised breakdown-decode error. -/
def get_trip (db : DB) (username : String) (trip_id : Nat) : Option TripPlan :=
  match db.trips.find? (fun t => t.id = trip_id) with
  | none => none
  | some trip =>
    if trip.user_id ≠ some username then none
    else
      let dayRows := sortDays (db.days.filter (fun d => d.trip_id = trip_id))
      let daily_plan := dayRows.map (fun d =>
        ({ day := d.day_number, title := d.title, summary := d.summary,
           places := loadStrList d.places } : DayPlan))
      match loadBreakdown trip.budget_breakdown with
      | none => none
      | some bb =>
        some { id := some (trip.id : Int), destination := trip.destination,
               days := trip.days, budget_level := trip.budget_level,
               overview := trip.overview, daily_plan := daily_plan,
               tips := loadStrList trip.tips,
               estimated_total_budget := trip.estimated_total_budget,
               estimated_per_person := trip.estimated_per_person,
               budget_breakdown := bb, lat := trip.lat, lng := trip.lng,
               weather_summary := trip.weather_summary }

/-- `analyze_chat_intent`: an error dict without a Gemini key; otherwise
strip code fences from the understanding provider's text and `json.loads`
it, degrading to a generic clarifying `continue` dict when the call raises
or the output does not parse.  `nlu` is the understanding-call oracle. -/
def analyze_chat_intent (cfg : Config) (nlu : Except Unit String) : JsonVal :=
  match cfg.gemini with
  | none => .obj [("action", .str "error"), ("response", .str "AI not configured.")]
  | some _ =>
    match nlu with
    | .error _ =>
      .obj [("action", .str "continue"),
            ("response", .str "I'm having trouble understanding. Could you please clarify where you want to go?")]
    | .ok t =>
      let t1 := if t.startsWith "```json" then String.mk (t.data.drop 7) else t
      let t2 := if t1.endsWith "```" then String.mk (t1.data.take (t1.data.length - 3))
        else t1
      match json_loads (pyStrip t2) with
      | some v => v
      | none =>
        .obj [("action", .str "continue"),
              ("response", .str "I'm having trouble understanding. Could you please clarify where you want to go?")]

/-- The chat path's cleanup of generative text: strip, cut `[7:-3]` when it
starts with a fenced-JSON marker, then `json.loads` (no brace-bounding). -/
def chatGenDecode (t : String) : Option JsonVal :=
  let ct := pyStrip t
  let ct2 := if ct.startsWith "```json" then
      String.mk ((ct.data.drop 7).take (ct.data.length - 10))
    else ct
  json_loads ct2

/-- Build the chat path's `TripRequest` from the resolver's `params` dict:
`days` defaults to 3, `travelers` to 1, `budget_level` to `"medium"` when
the keys are absent.  `none` models a pydantic `ValidationError` (an
uncaught exception). -/
def tripReqOfParams (ps : List (String × JsonVal)) (username : String) :
    Option TripRequest := do
  let origin ← match jget ps "origin" with
    | none => some none
    | some .null => some none
    | some (.str s) => some (some s)
    | some _ => none
  let destination ← match jget ps "destination" with
    | some (.str s) => some s
    | _ => none
  let days ← match jgetD ps "days" (.num 3) with
    | .num q => if q.den = 1 then some q.num else none
    | _ => none
  let travelers ← match jgetD ps "travelers" (.num 1) with
    | .null => some none
    | .num q => if q.den = 1 then some (some q.num) else none
    | _ => none
  let budget_level ← match jgetD ps "budget_level" (.str "medium") with
    | .null => some none
    | .str s => some (some s)
    | _ => none
  pure { origin := origin, destination := destination, days := days,
         budget_level := budget_level, travelers := travelers,
         travel_month := none, preferences := none, notes := none,
         user_id := some username }

/-- The outcome of one `chat_interaction` turn: a follow-up response, a
generated-and-persisted plan (with the commit states), or an uncaught
exception (HTTP 500). -/
inductive ChatOutcome where
  | continueTurn (response : JsonVal)
  | planReady (response : String) (plan : TripPlan) (commits : List DB)
  | error

/-- The chat path's follow-up answer when generation or its parse fails
(the `except` around the generation block). -/
def chatContinueMsg : ChatOutcome :=
  .continueTurn (.str "I'm having trouble generating the plan right now. Please try again or provide more specific details.")

/-- The chat path's mutations of the decoded `data` dict before
`TripPlan(**data)`: `setdefault` the budget level, then overwrite the
computed budget totals, geocode coordinates and weather summary. -/
def chatMergedData (cfg : Config) (trip_req : TripRequest) (tv : Int)
    (data : List (String × JsonVal)) (net : Net) : List (String × JsonVal) :=
  jset (jset (jset (jset (jset
    (jsetdefault data "budget_level" (optStrJson trip_req.budget_level))
    "estimated_total_budget"
    (.num (estimate_budget trip_req.days tv (trip_req.budget_level.getD "medium")).1))
    "estimated_per_person"
    (.num (estimate_budget trip_req.days tv (trip_req.budget_level.getD "medium")).2))
    "lat" (optQJson (geocode_destination cfg.mapbox trip_req.destination net.mapboxResp).1))
    "lng" (optQJson (geocode_destination cfg.mapbox trip_req.destination net.mapboxResp).2))
    "weather_summary"
    (optStrJson (fetch_weather cfg.weather
      (geocode_destination cfg.mapbox trip_req.destination net.mapboxResp).1
      (geocode_destination cfg.mapbox trip_req.destination net.mapboxResp).2
      net.weatherResp))

/-- Validate the merged dict into a `TripPlan` and persist it (chat save
site: no `budget_breakdown` column value); a validation failure raises. -/
def chat_build_and_persist (cfg : Config) (username : String)
    (trip_req : TripRequest) (tv : Int) (data : List (String × JsonVal))
    (net : Net) (db : DB) : ChatOutcome :=
  match tripPlanOfJson (chatMergedData cfg trip_req tv data net) with
  | none => .error
  | some plan =>
    let pc := persist_plan db (some username) trip_req.origin tv
      trip_req.travel_month plan false
    .planReady ("I've planned a " ++ intStr pc.1.days ++ "-day trip to "
      ++ pc.1.destination ++ " for you!") pc.1 pc.2

/-- Decode the generative text with the chat path's own cleanup: a parse
failure answers a `continue` message (not a placeholder plan); a decoded
dict is merged and validated-and-persisted; on a decoded non-dict the
`setdefault` call raises. -/
def chat_decode_stage (cfg : Config) (username : String)
    (trip_req : TripRequest) (tv : Int) (t : String) (net : Net)
    (db : DB) : ChatOutcome :=
  match chatGenDecode t with
  | none => chatContinueMsg
  | some (.obj data) => chat_build_and_persist cfg username trip_req tv data net db
  | some _ => .error

/-- The chat path's generation stage, given the validated request: re-run
generation; a provider error answers a `continue` message, otherwise the
raw text goes to `chat_decode_stage`. -/
def chat_generate_and_persist (cfg : Config) (username : String)
    (trip_req : TripRequest) (tv : Int) (gen : Except Unit String) (net : Net)
    (db : DB) : ChatOutcome :=
  match gen with
  | .error _ => chatContinueMsg
  | .ok t => chat_decode_stage cfg username trip_req tv t net db

/-- The plan-ready arm of `chat_interaction` once the extracted params have
validated into a `TripRequest`. -/
def chat_plan_ready (cfg : Config) (username : String) (ps : List (String × JsonVal))
    (gen : Except Unit String) (net : Net) (db : DB) : ChatOutcome :=
  match tripReqOfParams ps username with
  | none => .error
  | some trip_req =>
    if trip_req.destination = "" then
      .continueTurn (.str "I couldn't detect a destination. Where would you like to go?")
    else
      match trip_req.travelers with
      | none => .error
      | some tv => chat_generate_and_persist cfg username trip_req tv gen net db

/-- `chat_interaction`: run the intent analysis; on a `plan_ready` action
hand the extracted params to `chat_plan_ready`; on any other analysis
answer its `response` as a `continue` turn; a non-dict analysis or params
raises. -/
def chat_interaction (cfg : Config) (username : String) (nlu gen : Except Unit String)
    (net : Net) (db : DB) : ChatOutcome :=
  match analyze_chat_intent cfg nlu with
  | .obj a =>
    let isPlanReady : Bool := match jget a "action" with
      | some (.str s) => s = "plan_ready"
      | _ => false
    if isPlanReady then
      match jgetD a "params" (.obj []) with
      | .obj ps => chat_plan_ready cfg username ps gen net db
      | _ => .error
    else
      .continueTurn (jgetD a "response" (.str "Can you tell me more?"))
  | _ => .error

/-- The plan of a successful `plan_trip` outcome. -/
def PlanOutcome.planPart : PlanOutcome → Option TripPlan
  | .ok p _ => some p
  | .error => none

/-- The committed store states of a successful `plan_trip` outcome. -/
def PlanOutcome.commitsPart : PlanOutcome → List DB
  | .ok _ cs => cs
  | .error => []

/-- Did `plan_trip` return (rather than raise)? -/
def PlanOutcome.isOk : PlanOutcome → Bool
  | .ok _ _ => true
  | .error => false

/-- Is the chat outcome a `continue` turn? -/
def ChatOutcome.isContinueTurn : ChatOutcome → Bool
  | .continueTurn _ => true
  | _ => false

/-- The plan of a `plan_ready` chat outcome. -/
def ChatOutcome.planPart : ChatOutcome → Option TripPlan
  | .planReady _ p _ => some p
  | _ => none

/-- The committed store states of a `plan_ready` chat outcome. -/
def ChatOutcome.commitsPart : ChatOutcome → List DB
  | .planReady _ _ cs => cs
  | _ => []

set_option maxRecDepth 40000

/-- C6: for all days ≥ 1, travelers ≥ 1 and any budget-level string,
`estimate_budget` returns total = rate × days × travelers and perPerson =
total / travelers, where the rate is 40 for "low", 80 for "medium", 150
for "high" and 80 for any unrecognized level; it is a total function with
no failure modes. -/
theorem estimate_budget_formula (days travelers : Int) (level : String)
    (hd : 1 ≤ days) (ht : 1 ≤ travelers) :
    (estimate_budget days travelers level).1 = base_per_day level * days * travelers ∧
    (estimate_budget days travelers level).2 =
      (estimate_budget days travelers level).1 / (travelers : ℚ) ∧
    base_per_day "low" = 40 ∧ base_per_day "medium" = 80 ∧
    base_per_day "high" = 150 ∧
    (level ≠ "low" → level ≠ "medium" → level ≠ "high" → base_per_day level = 80) := by
  have h1 : (estimate_budget days travelers level).1 =
      base_per_day level * days * travelers := rfl
  have h2 : (estimate_budget days travelers level).2 =
      base_per_day level * days * travelers / ((max travelers 1 : Int) : ℚ) := rfl
  refine ⟨h1, ?_, rfl, rfl, rfl, ?_⟩
  · rw [h2, h1, max_eq_left ht]
  · intro ha hb hc
    simp [base_per_day, ha, hb, hc]

/-- Witness for C6 at days = 3, travelers = 2, level = "medium". -/
theorem estimate_budget_formula_witness :
    (estimate_budget 3 2 "medium").1 = base_per_day "medium" * 3 * 2 ∧
    (estimate_budget 3 2 "medium").2 = (estimate_budget 3 2 "medium").1 / (2 : ℚ) ∧
    base_per_day "low" = 40 ∧ base_per_day "medium" = 80 ∧
    base_per_day "high" = 150 ∧
    ("medium" ≠ "low" → "medium" ≠ "medium" → "medium" ≠ "high" →
      base_per_day "medium" = 80) :=
  estimate_budget_formula 3 2 "medium" (by norm_num) (by norm_num)

/-- C10 (implicit): `estimate_budget` is total even at travelers = 0, which
the spec's precondition excludes but the code does not enforce: the
per-person division is guarded by `max(travelers, 1)`, and the result at
travelers = 0 is `(0, 0)`. -/
theorem estimate_budget_zero_travelers (days : Int) (level : String) :
    estimate_budget days 0 level = (0, 0) := by
  simp [estimate_budget]

/-- C9: every enrichment adapter returns an empty result immediately (for
every possible network outcome, hence without depending on any call) when
its credential is unset; with a credential, a raised call (`.error`) or a
response without the expected JSON shape degrades to the empty result
instead of propagating; the weather adapter also requires both coordinates
before it will consult its oracle. -/
theorem adapters_degrade_to_empty (dst junk : String) (resp : Except Unit JsonVal)
    (key : String) (lat lng : Option ℚ) (latq lngq : ℚ) :
    fetch_google_events none resp = [] ∧
    fetch_hotels none resp = [] ∧
    fetch_restaurants none resp = [] ∧
    geocode_destination none dst resp = (none, none) ∧
    fetch_weather none lat lng resp = none ∧
    fetch_google_events (some key) (.error ()) = [] ∧
    fetch_hotels (some key) (.error ()) = [] ∧
    fetch_restaurants (some key) (.error ()) = [] ∧
    geocode_destination (some key) dst (.error ()) = (none, none) ∧
    fetch_weather (some key) (some latq) (some lngq) (.error ()) = none ∧
    fetch_google_events (some key) (.ok (.str junk)) = [] ∧
    fetch_hotels (some key) (.ok (.str junk)) = [] ∧
    fetch_restaurants (some key) (.ok (.str junk)) = [] ∧
    geocode_destination (some key) dst (.ok (.str junk)) = (none, none) ∧
    fetch_weather (some key) (some latq) (some lngq) (.ok (.str junk)) = none ∧
    fetch_weather (some key) none lng resp = none ∧
    fetch_weather (some key) lat none resp = none := by
  refine ⟨rfl, rfl, rfl, rfl, ?_, rfl, rfl, rfl, rfl, rfl, rfl, rfl, rfl, rfl, rfl,
    ?_, ?_⟩
  · cases lat <;> cases lng <;> rfl
  · cases lng <;> rfl
  · cases lat <;> rfl

/-- The end-to-end request of C5. -/
def kyotoReq : TripRequest :=
  { destination := "Kyoto", days := 3, budget_level := some "medium",
    travelers := some 2 }

/-- C5: with no generative credential configured, `plan_trip` for
`{destination: Kyoto, days: 3, budgetLevel: medium, travelers: 2}` returns
(for every store, user and oracle environment) a plan with exactly 3
day entries, estimated total budget 480 and estimated per-person 240. -/
theorem plan_trip_kyoto_unconfigured (username : String) (net : Net)
    (gen : Except Unit String) (db : DB) :
    (plan_trip { gemini := none } username kyotoReq net gen db).planPart.map
      (fun p => (p.daily_plan.length, p.estimated_total_budget, p.estimated_per_person))
      = some (3, some 480, some 240) := by
  have h : plan_trip { gemini := none } username kyotoReq net gen db =
      .ok (create_and_save_dummy_trip { gemini := none }
            { kyotoReq with user_id := some username } net db).1
          (create_and_save_dummy_trip { gemini := none }
            { kyotoReq with user_id := some username } net db).2 := rfl
  rw [h]
  simp only [PlanOutcome.planPart, Option.map_some', Option.some.injEq, Prod.mk.injEq]
  refine ⟨rfl, ?_, ?_⟩
  · rw [show (create_and_save_dummy_trip { gemini := none }
        { kyotoReq with user_id := some username } net db).1.estimated_total_budget =
        some ((80 : ℚ) * ((3 : Int) : ℚ) * ((2 : Int) : ℚ)) from rfl]
    norm_num
  · rw [show (create_and_save_dummy_trip { gemini := none }
        { kyotoReq with user_id := some username } net db).1.estimated_per_person =
        some ((80 : ℚ) * ((3 : Int) : ℚ) * ((2 : Int) : ℚ) / ((2 : Int) : ℚ)) from rfl]
    norm_num

/-- C1 counterexample: with a generative credential configured and raw text
that has no decodable JSON (and no brace-bounded substring), `plan_trip`
ends in the uncaught-exception outcome instead of returning the
deterministic placeholder plan. -/
theorem plan_trip_unsalvageable_cex :
    plan_trip { gemini := some "k" } "u" kyotoReq {} (.ok "no json at all") DB.empty
      = .error := by
  with_unfolding_all rfl

/-- C1 as amended: when the generative text cannot be decoded even after
brace-bounding, `plan_trip` re-raises the decode error (the request fails);
the placeholder fallback fires only when the generation call itself raises
(second conjunct) or no credential is configured. -/
theorem plan_trip_unsalvageable_raises (cfg : Config) (key username : String)
    (req : TripRequest) (net : Net) (db : DB) (t : String)
    (hkey : cfg.gemini = some key)
    (hdec : planTripDecode (if t = "" then "\x7b\x7d" else t) = none) :
    plan_trip cfg username req net (.ok t) db = .error ∧
    plan_trip cfg username req net (.error ()) db =
      .ok (create_and_save_dummy_trip cfg { req with user_id := some username } net db).1
          (create_and_save_dummy_trip cfg { req with user_id := some username } net db).2 := by
  constructor
  · simp only [plan_trip, hkey, hdec]
  · simp only [plan_trip, hkey]

/-- Witness for C1's amended theorem at a concrete undecodable text. -/
theorem plan_trip_unsalvageable_raises_witness :
    plan_trip { gemini := some "k" } "w" kyotoReq {} (.ok "fallback please") DB.empty
        = .error ∧
    plan_trip { gemini := some "k" } "w" kyotoReq {} (.error ()) DB.empty =
      .ok (create_and_save_dummy_trip { gemini := some "k" }
            { kyotoReq with user_id := some "w" } {} DB.empty).1
          (create_and_save_dummy_trip { gemini := some "k" }
            { kyotoReq with user_id := some "w" } {} DB.empty).2 :=
  plan_trip_unsalvageable_raises { gemini := some "k" } "k" "w" kyotoReq {} DB.empty
    "fallback please" rfl (by with_unfolding_all rfl)

/-- C2 counterexample: a concrete `plan_trip` run commits two observable
store states; in the first the Trip header row is durable with zero of its
three Day rows, so a read between the commits (or after a failure between
them) observes a header without its days. -/
theorem trip_header_committed_before_days_cex :
    ((plan_trip { gemini := none } "u" kyotoReq {} (.error ()) DB.empty).commitsPart.map
      (fun s => (s.trips.length, s.days.length))) = [(1, 0), (1, 3)] := by
  with_unfolding_all rfl

/-- C2 as amended: every save site commits the Trip header first (to obtain
its id) and the Day rows only in a second commit: after the first commit
the header is visible with none of its day rows (in a well-formed store no
existing day row references the new id), and only the second commit adds
them. -/
theorem saves_commit_header_then_days (db : DB) (t : TripRow) (dps : List DayPlan)
    (hwf : db.WF) :
    (save_trip_days db t dps).1.trips = db.trips ++ [{ t with id := db.nextTripId }] ∧
    (save_trip_days db t dps).1.days = db.days ∧
    (∀ d ∈ (save_trip_days db t dps).1.days, d.trip_id ≠ db.nextTripId) ∧
    (save_trip_days db t dps).2.trips = (save_trip_days db t dps).1.trips ∧
    (save_trip_days db t dps).2.days = db.days ++ dayRowsOf db.nextTripId dps := by
  refine ⟨rfl, rfl, ?_, rfl, rfl⟩
  intro d hd
  exact Nat.ne_of_lt (hwf.2 d hd)

/-- A sample header row for witnesses. -/
def sampleRow : TripRow :=
  { id := 0, user_id := some "u", origin := none, destination := "X", days := 1,
    budget_level := "low", travelers := 1, travel_month := none, overview := "o",
    tips := "a", estimated_total_budget := none, estimated_per_person := none,
    lat := none, lng := none, weather_summary := none, budget_breakdown := none }

/-- A sample day entry for witnesses. -/
def sampleDay : DayPlan := { day := 1, title := "t", summary := "s", places := ["p"] }

/-- Witness for C2's amended theorem on the empty store. -/
theorem saves_commit_header_then_days_witness :
    (save_trip_days DB.empty sampleRow [sampleDay]).1.trips =
      DB.empty.trips ++ [{ sampleRow with id := DB.empty.nextTripId }] ∧
    (save_trip_days DB.empty sampleRow [sampleDay]).1.days = DB.empty.days ∧
    (∀ d ∈ (save_trip_days DB.empty sampleRow [sampleDay]).1.days,
      d.trip_id ≠ DB.empty.nextTripId) ∧
    (save_trip_days DB.empty sampleRow [sampleDay]).2.trips =
      (save_trip_days DB.empty sampleRow [sampleDay]).1.trips ∧
    (save_trip_days DB.empty sampleRow [sampleDay]).2.days =
      DB.empty.days ++ dayRowsOf DB.empty.nextTripId [sampleDay] :=
  saves_commit_header_then_days DB.empty sampleRow [sampleDay] (by decide)

theorem findIdx_append_head (c : Char) (a b : List Char) (ha : c ∉ a)
    (hb : b.head? = some c) : findIdx c (a ++ b) = some a.length := by
  induction a with
  | nil =>
    cases b with
    | nil => simp at hb
    | cons x r =>
      simp only [List.head?_cons, Option.some.injEq] at hb
      subst hb
      simp [findIdx, List.findIdx?]
  | cons x r ih =>
    have hx : ¬ x = c := fun h => ha (h ▸ List.mem_cons_self x r)
    have ih' := ih (fun hc => ha (List.mem_cons_of_mem _ hc))
    unfold findIdx at ih' ⊢
    rw [List.cons_append, List.findIdx?_cons]
    simp only [hx, decide_eq_true_eq, if_neg, decide_False]
    rw [List.findIdx?_succ]
    cases hfi : (r ++ b).findIdx? (fun x => decide (x = c)) with
    | none => rw [hfi] at ih'; simp at ih'
    | some i =>
      rw [hfi] at ih'
      simp only [Option.map_some'] at ih' ⊢
      simp at ih'
      simp [ih']

theorem two_le_of_head_getLast (l : List Char) (hh : l.head? = some '{')
    (hl : l.getLast? = some '}') : 2 ≤ l.length := by
  match l with
  | [] => simp at hh
  | [x] =>
    simp at hh hl
    subst hh
    exact absurd hl (by decide)
  | x :: y :: r => simp [List.length_cons]

/-- C7 as amended: decoding a clean JSON object yields the same structured
result whether the text is given bare or wrapped in fenced code-block
markers with surrounding prose, provided the material before the object
contains no opening brace, the material after it contains no closing
brace, and the wrapped text is not itself a JSON document (which is the
case for any fenced wrapping); the C7 counterexample shows the prose
restriction is necessary. -/
theorem parse_fence_invariant (pre s suf : String) (v : JsonVal)
    (hs : json_loads s = some v)
    (hhead : s.data.head? = some '{')
    (hlast : s.data.getLast? = some '}')
    (hpre : '{' ∉ pre.data) (hsuf : '}' ∉ suf.data)
    (hwrap : json_loads (pre ++ s ++ suf) = none) :
    planTripDecode (pre ++ s ++ suf) = some v ∧ planTripDecode s = some v := by
  have hdata : (pre ++ s ++ suf).data = pre.data ++ s.data ++ suf.data := rfl
  have hslen : 2 ≤ s.data.length := two_le_of_head_getLast _ hhead hlast
  have hsrev : s.data.reverse.head? = some '}' := by
    rw [List.head?_reverse]; exact hlast
  have hfind : findIdx '{' (pre ++ s ++ suf).data = some pre.data.length := by
    rw [hdata, List.append_assoc]
    refine findIdx_append_head _ _ _ hpre ?_
    cases hsd : s.data with
    | nil => simp [hsd] at hhead
    | cons x r =>
      rw [hsd] at hhead
      simp only [List.head?_cons, Option.some.injEq] at hhead
      simp [hhead]
  have hfa := findIdx_append_head '}' suf.data.reverse (s.data.reverse ++ pre.data.reverse)
    (by simpa using hsuf)
    (by
      cases hsr : s.data.reverse with
      | nil => rw [hsr] at hsrev; simp at hsrev
      | cons x r =>
        rw [hsr] at hsrev
        simp only [List.head?_cons, Option.some.injEq] at hsrev
        simp [hsrev])
  unfold findIdx at hfa
  have hrfind : rfindIdx '}' (pre ++ s ++ suf).data =
      some (pre.data.length + s.data.length - 1) := by
    unfold rfindIdx
    have hrev : (pre ++ s ++ suf).data.reverse =
        suf.data.reverse ++ (s.data.reverse ++ pre.data.reverse) := by
      rw [hdata]
      simp [List.reverse_append, List.append_assoc]
    rw [hrev, hfa]
    have hlen : (pre ++ s ++ suf).data.length =
        pre.data.length + s.data.length + suf.data.length := by
      rw [hdata]; simp [List.length_append]; omega
    rw [hlen]
    simp [List.length_reverse]
    omega
  constructor
  · simp only [planTripDecode, hwrap, hfind, hrfind]
    rw [if_pos (by omega : pre.data.length < pre.data.length + s.data.length - 1)]
    rw [show pre.data.length + s.data.length - 1 + 1 - pre.data.length =
        s.data.length from by omega]
    rw [hdata, List.append_assoc, List.drop_left, List.take_left]
    exact hs
  · simp only [planTripDecode, hs]

/-- C7 counterexample: with prose after the fence containing a closing
brace, the brace-bounded substring is not decodable, so the wrapped text
raises where the bare object decodes: the two results differ. -/
theorem parse_fence_prose_cex :
    planTripDecode "\x7b\"a\": 1\x7d" = some (.obj [("a", .num 1)]) ∧
    planTripDecode "```json\n\x7b\"a\": 1\x7d\n``` see also \x7d" = none := by
  constructor
  · with_unfolding_all rfl
  · with_unfolding_all rfl

/-- Witness for C7's amended theorem at the canonical fenced example. -/
theorem parse_fence_invariant_witness :
    planTripDecode ("```json\n" ++ "\x7b\"a\": 1\x7d" ++ "\n```") =
      some (.obj [("a", .num 1)]) ∧
    planTripDecode "\x7b\"a\": 1\x7d" = some (.obj [("a", .num 1)]) :=
  parse_fence_invariant "```json\n" "\x7b\"a\": 1\x7d" "\n```" (.obj [("a", .num 1)])
    (by with_unfolding_all rfl) (by with_unfolding_all rfl) (by with_unfolding_all rfl)
    (by decide) (by decide) (by with_unfolding_all rfl)

/-- Strings storable in a newline-delimited text column without loss. -/
def listOkNl (l : List String) : Prop :=
  (∀ s ∈ l, '\n' ∉ s.data) ∧ l ≠ [""]

instance (l : List String) : Decidable (listOkNl l) := by
  unfold listOkNl; infer_instance

theorem string_mk_data_eq (t : String) : String.mk t.data = t := rfl

theorem splitNlCore_no_nl (l : List Char) (h : '\n' ∉ l) : splitNlCore l = [l] := by
  induction l with
  | nil => rfl
  | cons c r ih =>
    have hc : ¬ c = '\n' := fun hh => h (hh ▸ List.mem_cons_self c r)
    have hr := ih (fun hm => h (List.mem_cons_of_mem _ hm))
    simp only [splitNlCore, if_neg hc, hr]

theorem splitNlCore_append (l m : List Char) (h : '\n' ∉ l) :
    splitNlCore (l ++ '\n' :: m) = l :: splitNlCore m := by
  induction l with
  | nil => simp [splitNlCore]
  | cons c r ih =>
    have hc : ¬ c = '\n' := fun hh => h (hh ▸ List.mem_cons_self c r)
    have hr := ih (fun hm => h (List.mem_cons_of_mem _ hm))
    simp only [List.cons_append, splitNlCore, if_neg hc]
    rw [show r.append ('\n' :: m) = r ++ '\n' :: m from rfl, hr]

theorem splitNlCore_joinNlCore (ls : List (List Char))
    (h : ∀ x ∈ ls, '\n' ∉ x) (hne : ls ≠ []) :
    splitNlCore (joinNlCore ls) = ls := by
  induction ls with
  | nil => exact absurd rfl hne
  | cons s rest ih =>
    cases rest with
    | nil => exact splitNlCore_no_nl s (h s (List.mem_cons_self _ _))
    | cons r t =>
      have hs : '\n' ∉ s := h s (List.mem_cons_self _ _)
      rw [show joinNlCore (s :: r :: t) = s ++ '\n' :: joinNlCore (r :: t) from rfl]
      rw [splitNlCore_append _ _ hs]
      rw [ih (fun x hx => h x (List.mem_cons_of_mem _ hx)) (by simp)]

theorem joinNlCore_eq_nil (s : List Char) (rest : List (List Char)) :
    joinNlCore (s :: rest) = [] → s = [] ∧ rest = [] := by
  cases rest with
  | nil => intro h; exact ⟨h, rfl⟩
  | cons r t =>
    intro h
    rw [show joinNlCore (s :: r :: t) = s ++ '\n' :: joinNlCore (r :: t) from rfl] at h
    cases s <;> simp at h

theorem map_mk_data (xs : List String) : xs.map (fun x => String.mk x.data) = xs := by
  induction xs with
  | nil => rfl
  | cons a b ih => simp only [List.map_cons, string_mk_data_eq, ih]

theorem loadStrList_joinNl (l : List String) (h : listOkNl l) :
    loadStrList (joinNl l) = l := by
  obtain ⟨hnl, hne⟩ := h
  cases l with
  | nil => rfl
  | cons s rest =>
    have hnl' : ∀ x ∈ (s :: rest).map String.data, '\n' ∉ x := by
      intro x hx
      obtain ⟨t, ht, rfl⟩ := List.mem_map.mp hx
      exact hnl t ht
    have hsplit := splitNlCore_joinNlCore ((s :: rest).map String.data) hnl' (by simp)
    have hcore : joinNlCore ((s :: rest).map String.data) ≠ [] := by
      intro hc
      rw [List.map_cons] at hc
      obtain ⟨h1, h2⟩ := joinNlCore_eq_nil _ _ hc
      have hrest : rest = [] := by
        cases rest with
        | nil => rfl
        | cons a b => simp at h2
      have hs : s = "" := by
        cases s with
        | mk d =>
          have h1' : d = [] := h1
          rw [h1']
      exact hne (by rw [hs, hrest])
    have hne' : joinNl (s :: rest) ≠ "" := by
      intro hj
      exact hcore (congrArg String.data hj)
    unfold loadStrList
    rw [if_neg hne']
    unfold pySplitNl joinNl
    rw [show (String.mk (joinNlCore ((s :: rest).map String.data))).data =
        joinNlCore ((s :: rest).map String.data) from rfl]
    rw [hsplit, List.map_map]
    exact map_mk_data _

theorem sortDays_sorted_id (l : List DayRow)
    (h : l.Pairwise (fun a b => a.day_number < b.day_number)) : sortDays l = l := by
  induction l with
  | nil => rfl
  | cons d r ih =>
    rw [List.pairwise_cons] at h
    unfold sortDays
    rw [ih h.2]
    cases r with
    | nil => rfl
    | cons e t =>
      have hde : d.day_number ≤ e.day_number :=
        le_of_lt (h.1 e (List.mem_cons_self _ _))
      unfold sortDaysInsert
      rw [if_pos hde]

theorem find?_append_fresh (ts : List TripRow) (row : TripRow) (tid : Nat)
    (h : ∀ t ∈ ts, t.id ≠ tid) (hrow : row.id = tid) :
    (ts ++ [row]).find? (fun t => t.id = tid) = some row := by
  induction ts with
  | nil => simp [List.find?, hrow]
  | cons t r ih =>
    have ht : ¬ (t.id = tid) := h t (List.mem_cons_self _ _)
    simp only [List.cons_append, List.find?]
    rw [decide_eq_false ht]
    exact ih (fun x hx => h x (List.mem_cons_of_mem _ hx))

theorem filter_append_fresh (ds : List DayRow) (new : List DayRow) (tid : Nat)
    (hold : ∀ d ∈ ds, d.trip_id ≠ tid) (hnew : ∀ d ∈ new, d.trip_id = tid) :
    (ds ++ new).filter (fun d => d.trip_id = tid) = new := by
  rw [List.filter_append]
  rw [List.filter_eq_nil_iff.mpr (by intro a ha; simpa using hold a ha)]
  rw [List.filter_eq_self.mpr (by intro a ha; simpa using hnew a ha)]
  simp

/-- The breakdown-serialization hypothesis in load form. -/
theorem loadBreakdown_dump (bb : Option (List (String × JsonVal)))
    (h : match bb with
      | none => True
      | some kvs => kvs ≠ [] ∧ json_loads (json_dumps (.obj kvs)) = some (.obj kvs)) :
    loadBreakdown (pyDumpBreakdown bb) = some bb := by
  cases bb with
  | none => rfl
  | some kvs =>
    obtain ⟨hne, hrt⟩ := h
    have hd : pyDumpBreakdown (some kvs) = some (json_dumps (.obj kvs)) := by
      simp [pyDumpBreakdown, List.isEmpty_eq_true, hne]
    rw [hd]
    simp only [loadBreakdown]
    rw [if_neg (by
      intro hj
      have hdata : dumpsVal (.obj kvs) = [] := congrArg String.data hj
      rw [show dumpsVal (.obj kvs) = '{' :: (dumpsObj kvs ++ ['\x7d']) from rfl] at hdata
      simp at hdata)]
    rw [hrt]

theorem daily_reconstruct (tid : Nat) (dps : List DayPlan)
    (hp : ∀ d ∈ dps, listOkNl d.places) :
    (dayRowsOf tid dps).map (fun d =>
      ({ day := d.day_number, title := d.title, summary := d.summary,
         places := loadStrList d.places } : DayPlan)) = dps := by
  induction dps with
  | nil => rfl
  | cons dp r ih =>
    simp only [dayRowsOf, List.map_cons] at ih ⊢
    rw [loadStrList_joinNl dp.places (hp dp (List.mem_cons_self _ _))]
    rw [ih (fun d hd => hp d (List.mem_cons_of_mem _ hd))]

theorem get_trip_after_persist (db : DB) (user_id origin : Option String) (tv : Int)
    (tm : Option String) (plan : TripPlan) (wb : Bool) (username : String)
    (hwf : db.WF) (huser : user_id = some username)
    (htips : listOkNl plan.tips)
    (hplaces : ∀ d ∈ plan.daily_plan, listOkNl d.places)
    (hsorted : plan.daily_plan.Pairwise (fun a b => a.day < b.day))
    (hbb : loadBreakdown (if wb then pyDumpBreakdown plan.budget_breakdown else none)
      = some plan.budget_breakdown) :
    ((persist_plan db user_id origin tv tm plan wb).2.getLast?.bind
      (fun dbf => get_trip dbf username db.nextTripId)) =
    some { plan with id := some (db.nextTripId : Int), events := none, hotels := none, restaurants := none } := by
  have h2 : (persist_plan db user_id origin tv tm plan wb).2.getLast? =
      some ⟨db.nextTripId + 1,
        db.trips ++
          [{ tripRowOf user_id origin tv tm plan wb with id := db.nextTripId }],
        db.days ++ dayRowsOf db.nextTripId plan.daily_plan⟩ := rfl
  rw [h2]
  rw [show ∀ (a : DB) (f : DB → Option TripPlan), (some a).bind f = f a from
    fun a f => rfl]
  unfold get_trip
  rw [find?_append_fresh db.trips _ db.nextTripId
    (fun t ht => Nat.ne_of_lt (hwf.1 t ht)) rfl]
  simp only [huser]
  rw [if_neg (by simp [tripRowOf])]
  rw [filter_append_fresh db.days _ db.nextTripId
    (fun d hd => Nat.ne_of_lt (hwf.2 d hd))
    (by
      intro d hd
      obtain ⟨dp, _, rfl⟩ := List.mem_map.mp hd
      rfl)]
  rw [sortDays_sorted_id _ (by
    refine List.pairwise_map.mpr ?_
    exact hsorted)]
  rw [daily_reconstruct _ _ hplaces]
  rw [show (tripRowOf (some username) origin tv tm plan wb).tips = joinNl plan.tips from rfl]
  rw [loadStrList_joinNl _ htips]
  rw [show (tripRowOf (some username) origin tv tm plan wb).budget_breakdown = (if wb then pyDumpBreakdown plan.budget_breakdown else none) from rfl]
  rw [hbb]
  rfl

/-- Conditions under which a written plan survives the delimited-text and
JSON-blob round trip. -/
def planSafe : Option TripPlan → Prop
  | none => True
  | some p => listOkNl p.tips ∧ (∀ d ∈ p.daily_plan, listOkNl d.places) ∧
      p.daily_plan.Pairwise (fun a b => a.day < b.day) ∧
      (match p.budget_breakdown with
        | none => True
        | some kvs => kvs ≠ [] ∧ json_loads (json_dumps (.obj kvs)) = some (.obj kvs))

theorem dummy_plan_safe (cfg : Config) (req : TripRequest) (net : Net) :
    listOkNl (dummy_trip_plan cfg req net).tips ∧
    (∀ d ∈ (dummy_trip_plan cfg req net).daily_plan, listOkNl d.places) ∧
    (dummy_trip_plan cfg req net).daily_plan.Pairwise (fun a b => a.day < b.day) := by
  refine ⟨?_, ?_, ?_⟩
  · show listOkNl ["Set GEMINI_API_KEY in your backend environment.",
      "Optionally set GEMINI_MODEL (e.g. gemini-3-flash-preview).",
      "Restart the FastAPI server after setting the vars."]
    decide
  · intro d hd
    obtain ⟨i, _, rfl⟩ := List.mem_map.mp hd
    show listOkNl ((List.range 3).map (fun j => "Sample place " ++ natStr (j + 1)))
    decide
  · refine List.pairwise_map.mpr ?_
    refine (List.pairwise_lt_range _).imp ?_
    intro i j hij
    show ((i + 1 : ℕ) : Int) < ((j + 1 : ℕ) : Int)
    exact_mod_cast Nat.succ_lt_succ hij

/-- C3 as amended: for every plan `plan_trip` writes, loading it back by
its assigned identity yields the written plan field for field — including
tips, each day's places, and budget_breakdown — provided the store is
well-formed and the written plan is delimiter-safe (no newline inside a
tip or place, tips/places not `[""]`, day numbers strictly increasing, and
a budget_breakdown whose JSON serialization round-trips); the enrichment
fields events/hotels/restaurants are `None` (not merely empty) after
reload.  The C3 counterexample shows the delimiter condition is
necessary. -/
theorem plan_trip_load_roundtrip (cfg : Config) (username : String)
    (req : TripRequest) (net : Net) (gen : Except Unit String) (db : DB)
    (hwf : db.WF)
    (hsafe : planSafe (plan_trip cfg username req net gen db).planPart) :
    ((plan_trip cfg username req net gen db).commitsPart.getLast?.bind
      (fun dbf => get_trip dbf username db.nextTripId)) =
    (plan_trip cfg username req net gen db).planPart.map
      (fun p => { p with events := none, hotels := none, restaurants := none }) := by
  obtain ⟨g, mb, we, se⟩ := cfg
  cases g with
  | none =>
    show ((create_and_save_dummy_trip _ _ net db).2.getLast?.bind _) = _
    rw [show create_and_save_dummy_trip ⟨none, mb, we, se⟩
        { req with user_id := some username } net db =
      persist_plan db (some username) req.origin (pyOrInt req.travelers 1)
        req.travel_month
        (dummy_trip_plan ⟨none, mb, we, se⟩ { req with user_id := some username } net)
        false from rfl]
    obtain ⟨ht, hp, hs⟩ := dummy_plan_safe (⟨none, mb, we, se⟩ : Config)
      { req with user_id := some username } net
    exact get_trip_after_persist db (some username) req.origin
      (pyOrInt req.travelers 1) req.travel_month _ false username hwf rfl ht hp hs rfl
  | some key =>
    cases gen with
    | error e =>
      show ((create_and_save_dummy_trip _ _ net db).2.getLast?.bind _) = _
      rw [show create_and_save_dummy_trip ⟨some key, mb, we, se⟩
          { req with user_id := some username } net db =
        persist_plan db (some username) req.origin (pyOrInt req.travelers 1)
          req.travel_month
          (dummy_trip_plan ⟨some key, mb, we, se⟩
            { req with user_id := some username } net)
          false from rfl]
      obtain ⟨ht, hp, hs⟩ := dummy_plan_safe (⟨some key, mb, we, se⟩ : Config)
        { req with user_id := some username } net
      exact get_trip_after_persist db (some username) req.origin
        (pyOrInt req.travelers 1) req.travel_month _ false username hwf rfl ht hp hs rfl
    | ok t =>
      revert hsafe
      simp only [plan_trip]
      split
      · intro _
        rfl
      · unfold plan_build_and_persist
        split
        · intro _
          rfl
        · intro hsafe
          obtain ⟨h1, h2, h3, h4⟩ := hsafe
          show ((persist_plan db (some username) req.origin (pyOrInt req.travelers 1)
              req.travel_month _ true).2.getLast?.bind _) = _
          exact get_trip_after_persist db (some username) req.origin
            (pyOrInt req.travelers 1) req.travel_month _ true username hwf rfl
            h1 h2 h3 (loadBreakdown_dump _ h4)
      · intro _
        rfl

/-- Generative text whose tips contain a newline (C3 counterexample). -/
def tNl : String :=
  "\x7b\"destination\": \"X\", \"days\": 1, \"budget_level\": \"low\", \"overview\": \"o\", \"daily_plan\": [\x7b\"day\": 1, \"title\": \"t\", \"summary\": \"s\", \"places\": [\"p\"]\x7d], \"tips\": [\"a\\nb\"]\x7d"

/-- The request used by the C3 concrete runs. -/
def reqX : TripRequest :=
  { destination := "X", days := 1, budget_level := some "low", travelers := some 1 }

/-- C3 counterexample: a generative plan with the tip `"a\nb"` is written
by `plan_trip`, but loading it back yields the two tips `"a"`, `"b"`: the
newline-joined text column does not survive the round trip
field-for-field. -/
theorem plan_trip_roundtrip_cex :
    (plan_trip { gemini := some "k" } "u" reqX {} (.ok tNl) DB.empty).planPart.map
      (fun p => p.tips) = some ["a\nb"] ∧
    ((plan_trip { gemini := some "k" } "u" reqX {} (.ok tNl)
        DB.empty).commitsPart.getLast?.bind
      (fun dbf => get_trip dbf "u" 0)).map (fun p => p.tips) = some ["a", "b"] ∧
    (["a\nb"] : List String) ≠ ["a", "b"] := by
  refine ⟨?_, ?_, by decide⟩
  · with_unfolding_all rfl
  · with_unfolding_all rfl

/-- Well-behaved generative text for the C3 witness. -/
def tW : String :=
  "\x7b\"destination\": \"X\", \"days\": 1, \"budget_level\": \"low\", \"overview\": \"o\", \"daily_plan\": [\x7b\"day\": 1, \"title\": \"t\", \"summary\": \"s\", \"places\": [\"p\"]\x7d], \"tips\": [\"a\"], \"budget_breakdown\": \x7b\"total\": 100\x7d\x7d"

/-- The plan `plan_trip` returns on `tW` (checked by reduction in the
witness). -/
def pW : TripPlan :=
  { id := some 0, destination := "X", days := 1, budget_level := "low",
    overview := "o",
    daily_plan := [{ day := 1, title := "t", summary := "s", places := ["p"] }],
    tips := ["a"], estimated_total_budget := some 40,
    estimated_per_person := some 40,
    budget_breakdown := some [("total", JsonVal.num 100)],
    lat := none, lng := none, weather_summary := none,
    events := some [], hotels := some [], restaurants := some [] }

/-- Witness for C3's amended theorem on a concrete generative run with a
budget breakdown. -/
theorem plan_trip_load_roundtrip_witness :
    ((plan_trip { gemini := some "k" } "u" reqX {} (.ok tW)
        DB.empty).commitsPart.getLast?.bind
      (fun dbf => get_trip dbf "u" DB.empty.nextTripId)) =
    (plan_trip { gemini := some "k" } "u" reqX {} (.ok tW) DB.empty).planPart.map
      (fun p => { p with events := none, hotels := none, restaurants := none }) :=
  plan_trip_load_roundtrip { gemini := some "k" } "u" reqX {} (.ok tW) DB.empty
    (by decide)
    (by
      rw [show (plan_trip { gemini := some "k" } "u" reqX {} (.ok tW)
          DB.empty).planPart = some pW from by with_unfolding_all rfl]
      exact ⟨by decide, by decide, by decide, by simp, by with_unfolding_all rfl⟩)

/-- `dictInsert` makes the inserted key visible. -/
theorem jget_dictInsert_self (o : List (String × JsonVal)) (k : String) (v : JsonVal) :
    jget (dictInsert o k v) k = some v := by
  induction o with
  | nil => simp [dictInsert, jget, List.find?]
  | cons p r ih =>
    obtain ⟨k', v'⟩ := p
    unfold dictInsert
    by_cases h : k' = k
    · simp [h, jget, List.find?]
    · simp only [if_neg h]
      simpa [jget, List.find?, h] using ih

/-- `dictInsert` leaves other keys unchanged. -/
theorem jget_dictInsert_ne (o : List (String × JsonVal)) (k k' : String) (v : JsonVal)
    (h : k' ≠ k) : jget (dictInsert o k v) k' = jget o k' := by
  induction o with
  | nil => simp [dictInsert, jget, List.find?, Ne.symm h]
  | cons p r ih =>
    obtain ⟨k0, v0⟩ := p
    unfold dictInsert
    by_cases h0 : k0 = k
    · subst h0
      simp [jget, List.find?, Ne.symm h]
    · simp only [if_neg h0]
      by_cases h1 : k0 = k'
      · subst h1
        simp [jget, List.find?]
      · simp only [jget, List.find?] at ih ⊢
        rw [show (decide (k0 = k') : Bool) = false from by simp [h1]]
        simpa using ih

/-- `jset` makes the written key visible. -/
theorem jget_jset_self (o : List (String × JsonVal)) (k : String) (v : JsonVal) :
    jget (jset o k v) k = some v := jget_dictInsert_self o k v

/-- `jset` leaves other keys unchanged. -/
theorem jget_jset_ne (o : List (String × JsonVal)) (k k' : String) (v : JsonVal)
    (h : k' ≠ k) : jget (jset o k v) k' = jget o k' := jget_dictInsert_ne o k k' v h

/-- Lookup over an appended dict tries the left part first. -/
theorem jget_append (o1 o2 : List (String × JsonVal)) (k : String) :
    jget (o1 ++ o2) k =
      match jget o1 k with
      | some v => some v
      | none => jget o2 k := by
  induction o1 with
  | nil => simp [jget, List.find?]
  | cons p r ih =>
    obtain ⟨k0, v0⟩ := p
    simp only [jget, List.find?, List.cons_append] at ih ⊢
    cases hd : (decide (k0 = k) : Bool) with
    | true => rfl
    | false => exact ih

/-- `setdefault` on an absent key stores the default. -/
theorem jget_jsetdefault_self_none (o : List (String × JsonVal)) (k : String)
    (v : JsonVal) (h : jget o k = none) : jget (jsetdefault o k v) k = some v := by
  unfold jsetdefault
  rw [h, jget_append, h]
  simp [jget, List.find?]

/-- `setdefault` leaves other keys unchanged. -/
theorem jget_jsetdefault_ne (o : List (String × JsonVal)) (k k' : String) (v : JsonVal)
    (h : k' ≠ k) : jget (jsetdefault o k v) k' = jget o k' := by
  unfold jsetdefault
  cases hk : jget o k with
  | some w => rfl
  | none =>
    rw [jget_append]
    cases hk' : jget o k' with
    | some w => rfl
    | none => simp [jget, List.find?, Ne.symm h]

/-- The chat request builder silently defaults absent `travelers` to 1 and absent `budget_level` to "medium". -/
theorem tripReqOfParams_defaults (ps : List (String × JsonVal)) (username : String)
    (htrav : jget ps "travelers" = none) (hbud : jget ps "budget_level" = none) :
    ∀ tr, tripReqOfParams ps username = some tr →
      tr.travelers = some 1 ∧ tr.budget_level = some "medium" := by
  intro tr htr
  unfold tripReqOfParams at htr
  rw [show jgetD ps "travelers" (.num 1) = .num 1 from by simp [jgetD, htrav]] at htr
  rw [show jgetD ps "budget_level" (.str "medium") = .str "medium" from by
    simp [jgetD, hbud]] at htr
  simp only [show ((1 : ℚ).den = 1) = True from by simp, if_true,
    Option.bind_eq_bind, Option.some_bind, Option.pure_def] at htr
  repeat' split at htr
  all_goals
    first
      | (injection htr with h
         subst h
         exact ⟨rfl, rfl⟩)
      | (exact absurd htr.symm (by simp))

/-- Decompose a successful `Option` bind. -/
theorem optBind_eq_some {α β : Type} (x : Option α) (f : α → Option β) (b : β) :
    (x >>= f = some b) ↔ ∃ a, x = some a ∧ f a = some b := by
  cases x <;> simp

/-- A validated plan takes its `budget_level` from the dict field. -/
theorem tripPlanOfJson_budget_level (o : List (String × JsonVal)) (p : TripPlan)
    (h : tripPlanOfJson o = some p) :
    reqField o "budget_level" asStr = some p.budget_level := by
  unfold tripPlanOfJson at h
  rw [optBind_eq_some] at h
  obtain ⟨a1, h1, h⟩ := h
  rw [optBind_eq_some] at h
  obtain ⟨a2, h2, h⟩ := h
  rw [optBind_eq_some] at h
  obtain ⟨a3, h3, h⟩ := h
  rw [optBind_eq_some] at h
  obtain ⟨a4, h4, h⟩ := h
  rw [optBind_eq_some] at h
  obtain ⟨a5, h5, h⟩ := h
  rw [optBind_eq_some] at h
  obtain ⟨a6, h6, h⟩ := h
  rw [optBind_eq_some] at h
  obtain ⟨a7, h7, h⟩ := h
  rw [optBind_eq_some] at h
  obtain ⟨a8, h8, h⟩ := h
  rw [optBind_eq_some] at h
  obtain ⟨a9, h9, h⟩ := h
  rw [optBind_eq_some] at h
  obtain ⟨a10, h10, h⟩ := h
  rw [optBind_eq_some] at h
  obtain ⟨a11, h11, h⟩ := h
  rw [optBind_eq_some] at h
  obtain ⟨a12, h12, h⟩ := h
  rw [optBind_eq_some] at h
  obtain ⟨a13, h13, h⟩ := h
  rw [optBind_eq_some] at h
  obtain ⟨a14, h14, h⟩ := h
  rw [optBind_eq_some] at h
  obtain ⟨a15, h15, h⟩ := h
  rw [optBind_eq_some] at h
  obtain ⟨a16, h16, h⟩ := h
  injection h with hrec
  rw [h4, ← hrec]

/-- The chat merge `setdefault`s an absent `budget_level` to the request value. -/
theorem jget_chatMergedData_budget_level (cfg : Config) (trip_req : TripRequest)
    (tv : Int) (data : List (String × JsonVal)) (net : Net)
    (hdbl : jget data "budget_level" = none) :
    jget (chatMergedData cfg trip_req tv data net) "budget_level" =
      some (optStrJson trip_req.budget_level) := by
  unfold chatMergedData
  rw [jget_jset_ne _ _ _ _ (by decide), jget_jset_ne _ _ _ _ (by decide),
    jget_jset_ne _ _ _ _ (by decide), jget_jset_ne _ _ _ _ (by decide),
    jget_jset_ne _ _ _ _ (by decide), jget_jsetdefault_self_none _ _ _ hdbl]

/-- The last commit of `persist_plan` ends with a Trip row carrying the given travelers and the plan's budget level. -/
theorem persist_plan_last_trip_row (db : DB) (u o : Option String) (tv : Int)
    (m : Option String) (plan : TripPlan) (bb : Bool) :
    ((persist_plan db u o tv m plan bb).2.getLast?.bind
      (fun s => s.trips.getLast?)).map (fun r => (r.travelers, r.budget_level)) =
      some (tv, plan.budget_level) := by
  have h2 : (persist_plan db u o tv m plan bb).2.getLast? =
      some ⟨db.nextTripId + 1,
        db.trips ++ [{ tripRowOf u o tv m plan bb with id := db.nextTripId }],
        db.days ++ dayRowsOf db.nextTripId plan.daily_plan⟩ := rfl
  rw [h2]
  rw [show ∀ (x : DB) (f : DB → Option TripRow), (some x).bind f = f x from
    fun x f => rfl]
  rw [show (⟨db.nextTripId + 1,
      db.trips ++ [{ tripRowOf u o tv m plan bb with id := db.nextTripId }],
      db.days ++ dayRowsOf db.nextTripId plan.daily_plan⟩ : DB).trips =
    db.trips ++ [{ tripRowOf u o tv m plan bb with id := db.nextTripId }] from rfl]
  rw [List.getLast?_concat]
  rfl

/-- The chat build stage persists the request's (defaulted) travelers and budget level. -/
theorem chat_build_row (cfg : Config) (username : String) (trip_req : TripRequest)
    (tv : Int) (data : List (String × JsonVal)) (net : Net) (db : DB)
    (hdbl : jget data "budget_level" = none)
    (hbl : trip_req.budget_level = some "medium")
    (hcommit :
      (chat_build_and_persist cfg username trip_req tv data net db).commitsPart
        ≠ []) :
    ((chat_build_and_persist cfg username trip_req tv data net
        db).commitsPart.getLast?.bind
      (fun s => s.trips.getLast?)).map (fun r => (r.travelers, r.budget_level)) =
      some (tv, "medium") := by
  revert hcommit
  unfold chat_build_and_persist
  split
  . intro hc
    exact absurd rfl hc
  . rename_i plan hplan
    intro _
    have hpl := tripPlanOfJson_budget_level _ _ hplan
    unfold reqField at hpl
    rw [jget_chatMergedData_budget_level _ _ _ _ _ hdbl, hbl] at hpl
    have hpl2 : plan.budget_level = "medium" := by
      rw [show ((some (optStrJson (some "medium"))).bind asStr : Option String) =
        some "medium" from rfl] at hpl
      injection hpl with h
      exact h.symm
    show ((persist_plan db (some username) trip_req.origin tv trip_req.travel_month
        plan false).2.getLast?.bind (fun s => s.trips.getLast?)).map
        (fun r => (r.travelers, r.budget_level)) = some (tv, "medium")
    rw [persist_plan_last_trip_row, hpl2]

/-- The chat generation stage persists the request's (defaulted) travelers and budget level. -/
theorem chat_gen_stage_row (cfg : Config) (username : String)
    (trip_req : TripRequest) (tv : Int) (net : Net) (db : DB) (t : String)
    (d : List (String × JsonVal))
    (hdec : chatGenDecode t = some (.obj d))
    (hdbl : jget d "budget_level" = none)
    (hbl : trip_req.budget_level = some "medium")
    (hcommit :
      (chat_generate_and_persist cfg username trip_req tv (.ok t) net db).commitsPart
        ≠ []) :
    ((chat_generate_and_persist cfg username trip_req tv (.ok t) net
        db).commitsPart.getLast?.bind
      (fun s => s.trips.getLast?)).map (fun r => (r.travelers, r.budget_level)) =
      some (tv, "medium") := by
  have hstep : chat_generate_and_persist cfg username trip_req tv (.ok t) net db =
      chat_decode_stage cfg username trip_req tv t net db := rfl
  have hstep2 : chat_decode_stage cfg username trip_req tv t net db =
      chat_build_and_persist cfg username trip_req tv d net db := by
    unfold chat_decode_stage
    rw [hdec]
  rw [hstep, hstep2] at hcommit ⊢
  exact chat_build_row cfg username trip_req tv d net db hdbl hbl hcommit


/-- C8 as amended: when the resolver reports `plan_ready` with params
missing both `travelers` and `budget_level`, `chat_interaction` does not
return a `continue` turn asking for them: it silently builds the request
with the defaults travelers = 1 and budget level "medium", and any Trip
row it persists on that turn carries exactly those defaulted values. -/
theorem chat_defaults_missing_slots (cfg : Config) (username : String)
    (nlu gen : Except Unit String) (net : Net) (db : DB)
    (a ps d : List (String × JsonVal)) (t : String)
    (hana : analyze_chat_intent cfg nlu = .obj a)
    (hact : jget a "action" = some (.str "plan_ready"))
    (hpar : jget a "params" = some (.obj ps))
    (htrav : jget ps "travelers" = none)
    (hbud : jget ps "budget_level" = none)
    (hgen : gen = .ok t)
    (hdec : chatGenDecode t = some (.obj d))
    (hdbl : jget d "budget_level" = none)
    (hcommit : (chat_interaction cfg username nlu gen net db).commitsPart ≠ []) :
    ((chat_interaction cfg username nlu gen net db).commitsPart.getLast?.bind
      (fun s => s.trips.getLast?)).map (fun r => (r.travelers, r.budget_level)) =
      some (1, "medium") := by
  have hdef := tripReqOfParams_defaults ps username htrav hbud
  revert hcommit
  subst hgen
  simp only [chat_interaction, chat_plan_ready, hana, hact,
    show jgetD a "params" (.obj []) = .obj ps from by simp [jgetD, hpar]]
  split
  . split
    . intro hc
      exact absurd rfl hc
    . rename_i tr htr
      obtain ⟨ht1, ht2⟩ := hdef tr htr
      split
      . intro hc
        exact absurd rfl hc
      . rw [ht1]
        intro hcommit
        exact chat_gen_stage_row cfg username tr 1 net db t d hdec hdbl ht2 hcommit
  . rename_i hfalse
    exact absurd (by decide) hfalse

/-- An intent analysis whose `plan_ready` params hold only a destination. -/
def nluC8 : String :=
  "\x7b\"action\": \"plan_ready\", \"params\": \x7b\"destination\": \"Kyoto\"\x7d\x7d"

/-- The extracted params of `nluC8`: no travelers, no budget level. -/
def paramsC8 : List (String × JsonVal) := [("destination", .str "Kyoto")]

/-- A clean generative plan JSON without a `budget_level` key. -/
def genC8 : String :=
  "\x7b\"destination\": \"Kyoto\", \"days\": 2, \"overview\": \"o\", \"daily_plan\": [\x7b\"day\": 1, \"title\": \"t\", \"summary\": \"s\", \"places\": [\"p\"]\x7d], \"tips\": [\"a\"]\x7d"

/-- The decoded analysis dict of `nluC8`. -/
def aC8 : List (String × JsonVal) :=
  [("action", .str "plan_ready"), ("params", .obj paramsC8)]

/-- The decoded generation dict of `genC8`. -/
def dC8 : List (String × JsonVal) :=
  [("destination", .str "Kyoto"), ("days", .num 2), ("overview", .str "o"),
   ("daily_plan", .arr [.obj [("day", .num 1), ("title", .str "t"),
     ("summary", .str "s"), ("places", .arr [.str "p"])]]),
   ("tips", .arr [.str "a"])]

/-- C8 counterexample: a `plan_ready` analysis whose params hold only a
destination still generates and persists a plan: the turn is not a
`continue` asking for the missing slots, and the persisted Trip row holds
the silently defaulted travelers = 1 and budget level "medium". -/
theorem chat_silent_defaults_cex :
    jget paramsC8 "travelers" = none ∧
    jget paramsC8 "budget_level" = none ∧
    analyze_chat_intent { gemini := some "k" } (.ok nluC8) =
      .obj [("action", .str "plan_ready"), ("params", .obj paramsC8)] ∧
    (chat_interaction { gemini := some "k" } "u" (.ok nluC8) (.ok genC8) {}
        DB.empty).isContinueTurn = false ∧
    ((chat_interaction { gemini := some "k" } "u" (.ok nluC8) (.ok genC8) {}
        DB.empty).commitsPart.getLast?.bind
      (fun s => s.trips.getLast?)).map (fun r => (r.travelers, r.budget_level)) =
      some (1, "medium") := by
  refine ⟨rfl, rfl, ?_, ?_, ?_⟩
  · with_unfolding_all rfl
  · with_unfolding_all rfl
  · with_unfolding_all rfl

/-- Witness for C8's amended theorem on the concrete missing-slots run. -/
theorem chat_defaults_missing_slots_witness :
    ((chat_interaction { gemini := some "k" } "u" (.ok nluC8) (.ok genC8) {}
        DB.empty).commitsPart.getLast?.bind
      (fun s => s.trips.getLast?)).map (fun r => (r.travelers, r.budget_level)) =
      some (1, "medium") :=
  chat_defaults_missing_slots { gemini := some "k" } "u" (.ok nluC8) (.ok genC8)
    {} DB.empty aC8 paramsC8 dC8 genC8
    (by with_unfolding_all rfl) rfl rfl rfl rfl rfl
    (by with_unfolding_all rfl) rfl
    (by
      intro h
      have hlen : (chat_interaction { gemini := some "k" } "u" (.ok nluC8)
          (.ok genC8) {} DB.empty).commitsPart.length = 2 := by
        with_unfolding_all rfl
      rw [h] at hlen
      exact absurd hlen (by decide))

/-- Python `or` keeps a nonzero int. -/
theorem pyOrInt_some (n : Int) (d : Int) (h : n ≠ 0) : pyOrInt (some n) d = n := by
  simp [pyOrInt, h]

/-- Python `or` keeps a nonempty string. -/
theorem pyOrStr_some (s : String) (d : String) (h : s ≠ "") :
    pyOrStr (some s) d = s := by
  simp [pyOrStr, h]

/-- The chat merge leaves keys other than its six written ones unchanged. -/
theorem jget_chatMergedData_ne (cfg : Config) (trip_req : TripRequest) (tv : Int)
    (d : List (String × JsonVal)) (net : Net) (k : String)
    (h1 : k ≠ "weather_summary") (h2 : k ≠ "lng") (h3 : k ≠ "lat")
    (h4 : k ≠ "estimated_per_person") (h5 : k ≠ "estimated_total_budget")
    (h6 : k ≠ "budget_level") :
    jget (chatMergedData cfg trip_req tv d net) k = jget d k := by
  unfold chatMergedData
  rw [jget_jset_ne _ _ _ _ h1, jget_jset_ne _ _ _ _ h2, jget_jset_ne _ _ _ _ h3,
    jget_jset_ne _ _ _ _ h4, jget_jset_ne _ _ _ _ h5, jget_jsetdefault_ne _ _ _ _ h6]

/-- The three enrichment writes leave other keys unchanged. -/
theorem jget_enrich3_ne (o : List (String × JsonVal)) (e h r : JsonVal) (k : String)
    (h1 : k ≠ "restaurants") (h2 : k ≠ "hotels") (h3 : k ≠ "events") :
    jget (jset (jset (jset o "events" e) "hotels" h) "restaurants" r) k = jget o k := by
  rw [jget_jset_ne _ _ _ _ h1, jget_jset_ne _ _ _ _ h2, jget_jset_ne _ _ _ _ h3]

/-- `plan_trip`'s merge is the chat merge followed by the three enrichment writes, given the request carries an explicit budget level. -/
theorem planMergedData_eq_enrich (cfg : Config) (username : String)
    (trip_req : TripRequest) (tv : Int) (lvl : String)
    (d : List (String × JsonVal)) (net : Net)
    (hbl : trip_req.budget_level = some lvl) :
    planMergedData cfg { trip_req with user_id := some username } tv lvl d net =
      jset (jset (jset (chatMergedData cfg trip_req tv d net)
        "events" (.arr (fetch_google_events cfg.serpapi net.eventsResp)))
        "hotels" (.arr (fetch_hotels cfg.serpapi net.hotelsResp)))
        "restaurants" (.arr (fetch_restaurants cfg.serpapi net.restaurantsResp)) := by
  unfold planMergedData chatMergedData
  rw [hbl]
  rfl

/-- A validated plan takes its `budget_breakdown` from the dict field. -/
theorem tripPlanOfJson_budget_breakdown (o : List (String × JsonVal)) (p : TripPlan)
    (h : tripPlanOfJson o = some p) :
    optField o "budget_breakdown" asObjOpt = some p.budget_breakdown := by
  unfold tripPlanOfJson at h
  rw [optBind_eq_some] at h
  obtain ⟨a1, h1, h⟩ := h
  rw [optBind_eq_some] at h
  obtain ⟨a2, h2, h⟩ := h
  rw [optBind_eq_some] at h
  obtain ⟨a3, h3, h⟩ := h
  rw [optBind_eq_some] at h
  obtain ⟨a4, h4, h⟩ := h
  rw [optBind_eq_some] at h
  obtain ⟨a5, h5, h⟩ := h
  rw [optBind_eq_some] at h
  obtain ⟨a6, h6, h⟩ := h
  rw [optBind_eq_some] at h
  obtain ⟨a7, h7, h⟩ := h
  rw [optBind_eq_some] at h
  obtain ⟨a8, h8, h⟩ := h
  rw [optBind_eq_some] at h
  obtain ⟨a9, h9, h⟩ := h
  rw [optBind_eq_some] at h
  obtain ⟨a10, h10, h⟩ := h
  rw [optBind_eq_some] at h
  obtain ⟨a11, h11, h⟩ := h
  rw [optBind_eq_some] at h
  obtain ⟨a12, h12, h⟩ := h
  rw [optBind_eq_some] at h
  obtain ⟨a13, h13, h⟩ := h
  rw [optBind_eq_some] at h
  obtain ⟨a14, h14, h⟩ := h
  rw [optBind_eq_some] at h
  obtain ⟨a15, h15, h⟩ := h
  rw [optBind_eq_some] at h
  obtain ⟨a16, h16, h⟩ := h
  injection h with hrec
  rw [h10, ← hrec]

/-- Optional-field validation only looks at the key's lookup. -/
theorem optField_congr {α : Type} (o1 o2 : List (String × JsonVal)) (k : String)
    (f : JsonVal → Option α) (h : jget o1 k = jget o2 k) :
    optField o1 k f = optField o2 k f := by
  unfold optField
  rw [h]

/-- Required-field validation only looks at the key's lookup. -/
theorem reqField_congr {α : Type} (o1 o2 : List (String × JsonVal)) (k : String)
    (f : JsonVal → Option α) (h : jget o1 k = jget o2 k) :
    reqField o1 k f = reqField o2 k f := by
  unfold reqField
  rw [h]

/-- Writing empty `events`/`hotels`/`restaurants` lists over a dict that
lacks those keys validates to the same plan with those three fields set to
empty lists instead of `None`. -/
theorem tripPlanOfJson_enrich_empty (o : List (String × JsonVal))
    (hev : jget o "events" = none) (hho : jget o "hotels" = none)
    (hre : jget o "restaurants" = none) :
    tripPlanOfJson (jset (jset (jset o "events" (.arr [])) "hotels" (.arr []))
        "restaurants" (.arr [])) =
      (tripPlanOfJson o).map (fun p =>
        { p with events := some [], hotels := some [], restaurants := some [] }) := by
  unfold tripPlanOfJson
  have e01 := jget_enrich3_ne o (.arr []) (.arr []) (.arr []) "id"
    (by decide) (by decide) (by decide)
  rw [optField_congr (jset (jset (jset o "events" (.arr [])) "hotels" (.arr [])) "restaurants" (.arr [])) o "id" asInt e01]
  cases h01 : optField o "id" asInt with
  | none => rfl
  | some a01 =>
    have e02 := jget_enrich3_ne o (.arr []) (.arr []) (.arr []) "destination"
      (by decide) (by decide) (by decide)
    rw [reqField_congr (jset (jset (jset o "events" (.arr [])) "hotels" (.arr [])) "restaurants" (.arr [])) o "destination" asStr e02]
    cases h02 : reqField o "destination" asStr with
    | none => rfl
    | some a02 =>
      have e03 := jget_enrich3_ne o (.arr []) (.arr []) (.arr []) "days"
        (by decide) (by decide) (by decide)
      rw [reqField_congr (jset (jset (jset o "events" (.arr [])) "hotels" (.arr [])) "restaurants" (.arr [])) o "days" asInt e03]
      cases h03 : reqField o "days" asInt with
      | none => rfl
      | some a03 =>
        have e04 := jget_enrich3_ne o (.arr []) (.arr []) (.arr []) "budget_level"
          (by decide) (by decide) (by decide)
        rw [reqField_congr (jset (jset (jset o "events" (.arr [])) "hotels" (.arr [])) "restaurants" (.arr [])) o "budget_level" asStr e04]
        cases h04 : reqField o "budget_level" asStr with
        | none => rfl
        | some a04 =>
          have e05 := jget_enrich3_ne o (.arr []) (.arr []) (.arr []) "overview"
            (by decide) (by decide) (by decide)
          rw [reqField_congr (jset (jset (jset o "events" (.arr [])) "hotels" (.arr [])) "restaurants" (.arr [])) o "overview" asStr e05]
          cases h05 : reqField o "overview" asStr with
          | none => rfl
          | some a05 =>
            have e06 := jget_enrich3_ne o (.arr []) (.arr []) (.arr []) "daily_plan"
              (by decide) (by decide) (by decide)
            rw [reqField_congr (jset (jset (jset o "events" (.arr [])) "hotels" (.arr [])) "restaurants" (.arr [])) o "daily_plan" asDayPlans e06]
            cases h06 : reqField o "daily_plan" asDayPlans with
            | none => rfl
            | some a06 =>
              have e07 := jget_enrich3_ne o (.arr []) (.arr []) (.arr []) "tips"
                (by decide) (by decide) (by decide)
              rw [reqField_congr (jset (jset (jset o "events" (.arr [])) "hotels" (.arr [])) "restaurants" (.arr [])) o "tips" asStrList e07]
              cases h07 : reqField o "tips" asStrList with
              | none => rfl
              | some a07 =>
                have e08 := jget_enrich3_ne o (.arr []) (.arr []) (.arr []) "estimated_total_budget"
                  (by decide) (by decide) (by decide)
                rw [optField_congr (jset (jset (jset o "events" (.arr [])) "hotels" (.arr [])) "restaurants" (.arr [])) o "estimated_total_budget" asQ e08]
                cases h08 : optField o "estimated_total_budget" asQ with
                | none => rfl
                | some a08 =>
                  have e09 := jget_enrich3_ne o (.arr []) (.arr []) (.arr []) "estimated_per_person"
                    (by decide) (by decide) (by decide)
                  rw [optField_congr (jset (jset (jset o "events" (.arr [])) "hotels" (.arr [])) "restaurants" (.arr [])) o "estimated_per_person" asQ e09]
                  cases h09 : optField o "estimated_per_person" asQ with
                  | none => rfl
                  | some a09 =>
                    have e10 := jget_enrich3_ne o (.arr []) (.arr []) (.arr []) "budget_breakdown"
                      (by decide) (by decide) (by decide)
                    rw [optField_congr (jset (jset (jset o "events" (.arr [])) "hotels" (.arr [])) "restaurants" (.arr [])) o "budget_breakdown" asObjOpt e10]
                    cases h10 : optField o "budget_breakdown" asObjOpt with
                    | none => rfl
                    | some a10 =>
                      have e11 := jget_enrich3_ne o (.arr []) (.arr []) (.arr []) "lat"
                        (by decide) (by decide) (by decide)
                      rw [optField_congr (jset (jset (jset o "events" (.arr [])) "hotels" (.arr [])) "restaurants" (.arr [])) o "lat" asQ e11]
                      cases h11 : optField o "lat" asQ with
                      | none => rfl
                      | some a11 =>
                        have e12 := jget_enrich3_ne o (.arr []) (.arr []) (.arr []) "lng"
                          (by decide) (by decide) (by decide)
                        rw [optField_congr (jset (jset (jset o "events" (.arr [])) "hotels" (.arr [])) "restaurants" (.arr [])) o "lng" asQ e12]
                        cases h12 : optField o "lng" asQ with
                        | none => rfl
                        | some a12 =>
                          have e13 := jget_enrich3_ne o (.arr []) (.arr []) (.arr []) "weather_summary"
                            (by decide) (by decide) (by decide)
                          rw [optField_congr (jset (jset (jset o "events" (.arr [])) "hotels" (.arr [])) "restaurants" (.arr [])) o "weather_summary" asStr e13]
                          cases h13 : optField o "weather_summary" asStr with
                          | none => rfl
                          | some a13 =>
                            have hoe : optField (jset (jset (jset o "events" (.arr [])) "hotels" (.arr [])) "restaurants" (.arr [])) "events" asDictList = some (some []) := by
                              unfold optField
                              rw [show jget (jset (jset (jset o "events" (.arr [])) "hotels" (.arr [])) "restaurants" (.arr [])) "events" = some (.arr []) from by
                                rw [jget_jset_ne _ _ _ _ (by decide), jget_jset_ne _ _ _ _ (by decide),
                                  jget_jset_self]]
                              rfl
                            have hoh : optField (jset (jset (jset o "events" (.arr [])) "hotels" (.arr [])) "restaurants" (.arr [])) "hotels" asDictList = some (some []) := by
                              unfold optField
                              rw [show jget (jset (jset (jset o "events" (.arr [])) "hotels" (.arr [])) "restaurants" (.arr [])) "hotels" = some (.arr []) from by
                                rw [jget_jset_ne _ _ _ _ (by decide), jget_jset_self]]
                              rfl
                            have hor : optField (jset (jset (jset o "events" (.arr [])) "hotels" (.arr [])) "restaurants" (.arr [])) "restaurants" asDictList = some (some []) := by
                              unfold optField
                              rw [jget_jset_self]
                              rfl
                            have hne : optField o "events" asDictList = some none := by
                              unfold optField
                              rw [hev]
                            have hnh : optField o "hotels" asDictList = some none := by
                              unfold optField
                              rw [hho]
                            have hnr : optField o "restaurants" asDictList = some none := by
                              unfold optField
                              rw [hre]
                            rw [hoe, hoh, hor, hne, hnh, hnr]
                            rfl

/-- Two persists commit identically when their header rows and day plans coincide. -/
theorem persist_plan_commits_congr (db : DB) (u o : Option String) (tv : Int)
    (m : Option String) (p q : TripPlan) (bp bq : Bool)
    (hrow : tripRowOf u o tv m p bp = tripRowOf u o tv m q bq)
    (hdp : p.daily_plan = q.daily_plan) :
    (persist_plan db u o tv m p bp).2 = (persist_plan db u o tv m q bq).2 := by
  unfold persist_plan save_trip_days
  rw [hrow, hdp]

/-- C4 as amended: the chat generation stage coincides with `plan_trip`
only under matching side conditions: both parsers decode the text to the
same dict, travelers is nonzero, the budget level is a nonempty string,
the dict lacks `events`/`hotels`/`restaurants`/`budget_breakdown` keys and
no SerpAPI credential is set.  Then the two paths commit identical store
states, and the returned plans agree except that `plan_trip` sets the
three enrichment lists to empty lists while the chat path leaves them
`None`.  (The paths differ beyond these conditions: see the
counterexample.) -/
theorem chat_matches_plan_trip (cfg : Config) (key username : String)
    (trip_req : TripRequest) (tv : Int) (lvl : String) (net : Net) (db : DB)
    (t : String) (d : List (String × JsonVal))
    (hgem : cfg.gemini = some key)
    (hsp : cfg.serpapi = none)
    (htv : trip_req.travelers = some tv) (htv0 : tv ≠ 0)
    (hbl : trip_req.budget_level = some lvl) (hlvl : lvl ≠ "")
    (hcd : chatGenDecode t = some (.obj d))
    (hpd : planTripDecode (if t = "" then "\x7b\x7d" else t) = some (.obj d))
    (hev : jget d "events" = none) (hho : jget d "hotels" = none)
    (hre : jget d "restaurants" = none) (hbb : jget d "budget_breakdown" = none) :
    (plan_trip cfg username trip_req net (.ok t) db).planPart =
      (chat_generate_and_persist cfg username trip_req tv (.ok t) net
          db).planPart.map
        (fun p =>
          { p with events := some [], hotels := some [], restaurants := some [] }) ∧
    (plan_trip cfg username trip_req net (.ok t) db).commitsPart =
      (chat_generate_and_persist cfg username trip_req tv (.ok t) net
          db).commitsPart := by
  have hc : chat_generate_and_persist cfg username trip_req tv (.ok t) net db =
      chat_build_and_persist cfg username trip_req tv d net db := by
    rw [show chat_generate_and_persist cfg username trip_req tv (.ok t) net db =
      chat_decode_stage cfg username trip_req tv t net db from rfl]
    unfold chat_decode_stage
    rw [hcd]
  have hp : plan_trip cfg username trip_req net (.ok t) db =
      plan_build_and_persist cfg { trip_req with user_id := some username }
        (pyOrInt trip_req.travelers 1) (pyOrStr trip_req.budget_level "medium")
        d net db := by
    simp only [plan_trip, hgem, hpd]
  rw [show pyOrInt trip_req.travelers 1 = tv from by
        rw [htv]; exact pyOrInt_some tv 1 htv0,
      show pyOrStr trip_req.budget_level "medium" = lvl from by
        rw [hbl]; exact pyOrStr_some lvl "medium" hlvl] at hp
  rw [hp, hc]
  unfold plan_build_and_persist chat_build_and_persist
  rw [planMergedData_eq_enrich cfg username trip_req tv lvl d net hbl]
  rw [hsp]
  rw [show fetch_google_events none net.eventsResp = [] from rfl,
      show fetch_hotels none net.hotelsResp = [] from rfl,
      show fetch_restaurants none net.restaurantsResp = [] from rfl]
  have hev2 : jget (chatMergedData cfg trip_req tv d net) "events" = none := by
    rw [jget_chatMergedData_ne _ _ _ _ _ _ (by decide) (by decide) (by decide)
      (by decide) (by decide) (by decide), hev]
  have hho2 : jget (chatMergedData cfg trip_req tv d net) "hotels" = none := by
    rw [jget_chatMergedData_ne _ _ _ _ _ _ (by decide) (by decide) (by decide)
      (by decide) (by decide) (by decide), hho]
  have hre2 : jget (chatMergedData cfg trip_req tv d net) "restaurants" = none := by
    rw [jget_chatMergedData_ne _ _ _ _ _ _ (by decide) (by decide) (by decide)
      (by decide) (by decide) (by decide), hre]
  rw [tripPlanOfJson_enrich_empty _ hev2 hho2 hre2]
  cases hTP : tripPlanOfJson (chatMergedData cfg trip_req tv d net) with
  | none => exact ⟨rfl, rfl⟩
  | some planC =>
    have h10 := tripPlanOfJson_budget_breakdown _ _ hTP
    rw [show optField (chatMergedData cfg trip_req tv d net) "budget_breakdown"
        asObjOpt = some none from by
      unfold optField
      rw [jget_chatMergedData_ne _ _ _ _ _ _ (by decide) (by decide) (by decide)
        (by decide) (by decide) (by decide), hbb]] at h10
    injection h10 with h10'
    constructor
    · rfl
    · show (persist_plan db (some username) trip_req.origin tv
          trip_req.travel_month
          { planC with events := some [], hotels := some [], restaurants := some [] }
          true).2 =
        (persist_plan db (some username) trip_req.origin tv
          trip_req.travel_month planC false).2
      apply persist_plan_commits_congr
      · unfold tripRowOf
        rw [show ({ planC with events := some [], hotels := some [], restaurants := some [] } : TripPlan).budget_breakdown =
          planC.budget_breakdown from rfl, ← h10']
        rfl
      · rfl

/-- An intent analysis with all five slots extracted. -/
def nluC4 : String :=
  "\x7b\"action\": \"plan_ready\", \"params\": \x7b\"destination\": \"Kyoto\", \"days\": 1, \"travelers\": 2, \"budget_level\": \"low\"\x7d\x7d"

/-- The extracted params of `nluC4`. -/
def paramsC4 : List (String × JsonVal) :=
  [("destination", .str "Kyoto"), ("days", .num 1), ("travelers", .num 2),
   ("budget_level", .str "low")]

/-- The request the chat path builds from `paramsC4`. -/
def reqC4 : TripRequest :=
  { destination := "Kyoto", days := 1, budget_level := some "low",
    travelers := some 2, user_id := some "u" }

/-- Generative text wrapping the plan JSON in prose: `plan_trip` brace-bounds it, the chat parse does not. -/
def genC4 : String :=
  "Here is your plan! \x7b\"destination\": \"Kyoto\", \"days\": 1, \"budget_level\": \"low\", \"overview\": \"o\", \"daily_plan\": [\x7b\"day\": 1, \"title\": \"t\", \"summary\": \"s\", \"places\": [\"p\"]\x7d], \"tips\": [\"a\"]\x7d"

/-- C4 counterexample: on generative text that wraps the JSON object in
prose, `plan_trip` brace-bounds, returns a plan and commits twice, while
the conversational path's parse fails and answers a `continue` turn with
no commit: the two paths do not produce and persist the same plan for the
same extracted parameters. -/
theorem chat_plan_divergence_cex :
    tripReqOfParams paramsC4 "u" = some reqC4 ∧
    analyze_chat_intent { gemini := some "k" } (.ok nluC4) =
      .obj [("action", .str "plan_ready"), ("params", .obj paramsC4)] ∧
    (chat_interaction { gemini := some "k" } "u" (.ok nluC4) (.ok genC4) {}
        DB.empty).isContinueTurn = true ∧
    (chat_interaction { gemini := some "k" } "u" (.ok nluC4) (.ok genC4) {}
        DB.empty).commitsPart.length = 0 ∧
    (plan_trip { gemini := some "k" } "u" reqC4 {} (.ok genC4) DB.empty).isOk
      = true ∧
    (plan_trip { gemini := some "k" } "u" reqC4 {} (.ok genC4)
        DB.empty).commitsPart.length = 2 := by
  refine ⟨?_, ?_, ?_, ?_, ?_, ?_⟩ <;> with_unfolding_all rfl

/-- Witness for C4's amended theorem on a clean generative run. -/
theorem chat_matches_plan_trip_witness :
    (plan_trip { gemini := some "k" } "u" reqC4 {} (.ok genC8) DB.empty).planPart =
      (chat_generate_and_persist { gemini := some "k" } "u" reqC4 2 (.ok genC8) {}
          DB.empty).planPart.map
        (fun p =>
          { p with events := some [], hotels := some [], restaurants := some [] }) ∧
    (plan_trip { gemini := some "k" } "u" reqC4 {} (.ok genC8)
        DB.empty).commitsPart =
      (chat_generate_and_persist { gemini := some "k" } "u" reqC4 2 (.ok genC8) {}
          DB.empty).commitsPart :=
  chat_matches_plan_trip { gemini := some "k" } "k" "u" reqC4 2 "low" {} DB.empty
    genC8 dC8 rfl rfl rfl (by decide) rfl (by decide)
    (by with_unfolding_all rfl) (by with_unfolding_all rfl) rfl rfl rfl rfl
